import Mathlib

/-!
# Anime recommender front end (`script.js`): shallow embedding

The script is a set of event handlers over a handful of DOM elements and one
remote HTTP API.  The embedding below keeps

* JavaScript strings as lists of UTF-16 code units (`JStr`), so that a string
  holding a lone surrogate, on which `encodeURIComponent` throws, is a value of
  the model;
* JSON values as the untyped tree `JVal` (what `response.json()` resolves to),
  with the JavaScript notions of truthiness, property access and `ToString`
  that the script relies on;
* the page as the record `UI`: the children of the three containers the script
  fills are DOM trees, and next to them the record keeps the markup that was
  last assigned through `innerHTML`;
* every `async` handler as a pure function of the page before the call and of
  the outcome of its request (`FetchResult`), returning the page after the
  handler has finished together with the list of requests it issued.

What belongs to the browser and not to the script is a parameter, the record
`Host`: the HTML parser behind `innerHTML`, the number formatting of the engine
(which works on IEEE doubles; a number is represented by its exact value in
`ℚ`), and the document order of the three containers in the static page.

Exceptions are modelled by `Option` (`none` = an exception was thrown) or, for
statements that mutate the page before throwing, by a completion flag.
-/

set_option maxRecDepth 100000

namespace AnimeUI

/-! ## Strings -/

/-- A JavaScript string: the list of its UTF-16 code units. -/
abbrev JStr := List Nat

/-- The UTF-16 code units of a Unicode scalar value. -/
def charUnits (c : Char) : List Nat :=
  if c.toNat < 65536 then [c.toNat]
  else [55296 + (c.toNat - 65536) / 1024, 56320 + (c.toNat - 65536) % 1024]

/-- The JavaScript string written by a literal. -/
def toUnits (s : String) : JStr :=
  s.data.flatMap charUnits

/-- Concatenation of a list of strings (`Array.prototype.join('')`). -/
def joinAll (rows : List JStr) : JStr :=
  rows.flatten

/-- Code units removed by `String.prototype.trim`: the ECMAScript `WhiteSpace`
and `LineTerminator` code points. -/
def isTrimmed (n : Nat) : Bool :=
  n = 9 || n = 10 || n = 11 || n = 12 || n = 13 || n = 32 || n = 160 ||
  n = 5760 || (8192 ≤ n && n ≤ 8202) || n = 8232 || n = 8233 || n = 8239 ||
  n = 8287 || n = 12288 || n = 65279

/-- The method `String.prototype.trim`. -/
def jsTrim (s : JStr) : JStr :=
  ((s.dropWhile isTrimmed).reverse.dropWhile isTrimmed).reverse

/-- Segments of a string around a separator (`String.prototype.split` with a
separator of one code unit). -/
def splitUnits (sep : Nat) : JStr → List JStr
  | [] => [[]]
  | c :: cs =>
    if c = sep then [] :: splitUnits sep cs
    else match splitUnits sep cs with
      | [] => [[c]]
      | seg :: rest => (c :: seg) :: rest

/-- Upper-case hexadecimal digit, as a code unit. -/
def hexDigit (d : Nat) : Nat :=
  if d < 10 then 48 + d else 55 + d

/-- UTF-8 bytes of a code point. -/
def utf8Bytes (n : Nat) : List Nat :=
  if n < 128 then [n]
  else if n < 2048 then [192 + n / 64, 128 + n % 64]
  else if n < 65536 then [224 + n / 4096, 128 + n / 64 % 64, 128 + n % 64]
  else [240 + n / 262144, 128 + n / 4096 % 64, 128 + n / 64 % 64, 128 + n % 64]

/-- The escape sequences `%XX` of a list of bytes. -/
def percentBytes (bytes : List Nat) : JStr :=
  bytes.flatMap fun b => [37, hexDigit (b / 16), hexDigit (b % 16)]

/-- Code units `encodeURIComponent` leaves alone:
letters, digits and `- _ . ! ~ * ' ( )`. -/
def isUnreserved (n : Nat) : Bool :=
  (65 ≤ n && n ≤ 90) || (97 ≤ n && n ≤ 122) || (48 ≤ n && n ≤ 57) ||
  n = 45 || n = 95 || n = 46 || n = 33 || n = 126 || n = 42 || n = 39 || n = 40 || n = 41

/-- The global function `encodeURIComponent` on a string.  `none` is the
`URIError` thrown on a lone surrogate. -/
def encodeURIComponent : JStr → Option JStr
  | [] => some []
  | u :: rest =>
    if isUnreserved u then (encodeURIComponent rest).map (u :: ·)
    else if 56320 ≤ u ∧ u ≤ 57343 then none
    else if 55296 ≤ u ∧ u ≤ 56319 then
      match rest with
      | v :: rest2 =>
        if 56320 ≤ v ∧ v ≤ 57343 then
          (encodeURIComponent rest2).map
            (percentBytes (utf8Bytes ((u - 55296) * 1024 + (v - 56320) + 65536)) ++ ·)
        else none
      | [] => none
    else (encodeURIComponent rest).map (percentBytes (utf8Bytes u) ++ ·)

/-! ## DOM trees and the host -/

/-- A node built by the HTML parser. -/
inductive Node where
  | text (data : JStr)
  | elem (tag : JStr) (attrs : List (JStr × JStr)) (children : List Node)

/-- The containers whose content the script builds from markup. -/
inductive Region where
  | recommendations
  | modalBody
  | chatMessages
deriving DecidableEq

/-- What the browser provides: the number built-ins of the engine (they work on
doubles), the HTML parser behind `innerHTML`, and the document order of the
three containers in the static page. -/
structure Host where
  /-- The conversion `Number::toString`, used when a number is interpolated into a string. -/
  numberToString : ℚ → JStr
  /-- The method `Number.prototype.toFixed(digits)`. -/
  toFixed : ℚ → Nat → JStr
  /-- The HTML fragment parser: the children built from non-empty markup. -/
  parseHTML : JStr → List Node
  /-- The containers in document order. -/
  documentOrder : List Region
  /-- Every container is in the document. -/
  documentOrder_complete : ∀ r : Region, r ∈ documentOrder

/-- Effect of `element.innerHTML = html` on the children of the element. -/
def setInnerHTML (H : Host) (html : JStr) : List Node :=
  if html = [] then [] else H.parseHTML html

/-- An element built by the script with `document.createElement`. -/
structure Element where
  tag : String
  id : String
  className : String
  /-- The attribute `data-title` (`dataset.title`). -/
  dataTitle : Option JStr
  /-- The markup last assigned to `innerHTML`. -/
  innerHTML : JStr
  /-- The children of the element. -/
  content : List Node

/-- A child of a container: a node the parser built from markup assigned to the
container, or an element added with `appendChild`. -/
inductive Child where
  | node (n : Node)
  | element (e : Element)

mutual
/-- Removal of the first element, in tree order, whose attribute `id` is the
given one, from a node: `none` when there is none, `some none` when it is the
node itself, `some (some n)` when it is below the node. -/
def removeIdNode (id : String) : Node → Option (Option Node)
  | .text _ => none
  | .elem tag attrs kids =>
    if attrs.lookup (toUnits "id") = some (toUnits id) then some none
    else
      match removeIdForest id kids with
      | some kids2 => some (some (Node.elem tag attrs kids2))
      | none => none
termination_by structural n => n
/-- Removal of the first element, in tree order, whose attribute `id` is the
given one from a list of nodes; `none` when there is none. -/
def removeIdForest (id : String) : List Node → Option (List Node)
  | [] => none
  | n :: rest =>
    match removeIdNode id n with
    | some none => some rest
    | some (some n2) => some (n2 :: rest)
    | none =>
      match removeIdForest id rest with
      | some rest2 => some (n :: rest2)
      | none => none
termination_by structural l => l
end

/-- Removal of the first element with the given id, in tree order, from the
children of a container; `none` when there is none. -/
def removeIdChildren (id : String) : List Child → Option (List Child)
  | [] => none
  | .node n :: rest =>
    match removeIdNode id n with
    | some none => some rest
    | some (some n2) => some (.node n2 :: rest)
    | none => (removeIdChildren id rest).map (.node n :: ·)
  | .element e :: rest =>
    if e.id = id then some rest
    else
      match removeIdForest id e.content with
      | some content2 => some (.element { e with content := content2 } :: rest)
      | none => (removeIdChildren id rest).map (.element e :: ·)

/-! ## JavaScript values -/

/-- JSON values as seen by the script, plus `undefined`.  An object is the list
of its own properties; keys holding a lone surrogate are left out, the script
reads none of them. -/
inductive JVal where
  | undefined
  | null
  | bool (b : Bool)
  | num (q : ℚ)
  | str (s : JStr)
  | arr (xs : List JVal)
  | obj (fields : List (String × JVal))

/-- JavaScript truthiness (`ToBoolean`). -/
def JVal.truthy : JVal → Bool
  | .undefined => false
  | .null => false
  | .bool b => b
  | .num q => decide (q ≠ 0)
  | .str s => decide (s ≠ [])
  | .arr _ => true
  | .obj _ => true

/-- Property read `v.key` for the keys the script uses (`name`, `genre`,
`image_url`, `rating`, `error`, `reply`, `anime_list`, `length`).  `none` is the
`TypeError` raised when `v` is `null` or `undefined`. -/
def JVal.getProp : JVal → String → Option JVal
  | .undefined, _ => none
  | .null, _ => none
  | .obj fields, key => some ((fields.lookup key).getD .undefined)
  | .arr xs, key => some (if key = "length" then .num xs.length else .undefined)
  | .str s, key => some (if key = "length" then .num s.length else .undefined)
  | .bool _, _ => some .undefined
  | .num _, _ => some .undefined

/-- Strict comparison `v === 0`. -/
def JVal.isZero : JVal → Bool
  | .num q => decide (q = 0)
  | _ => false

mutual
/-- The conversion `ToString`, as applied by template literals, by `+` with a
string operand, by `dataset` and by `encodeURIComponent`.  `none` is the
`TypeError` raised for an object whose own property `toString` hides
`Object.prototype.toString` (a JSON value is never callable). -/
def jsToString (H : Host) : JVal → Option JStr
  | .undefined => some (toUnits "undefined")
  | .null => some (toUnits "null")
  | .bool b => some (if b then toUnits "true" else toUnits "false")
  | .num q => some (H.numberToString q)
  | .str s => some s
  | .arr xs => joinElems H xs
  | .obj fields =>
    if (fields.lookup "toString").isSome then none else some (toUnits "[object Object]")
termination_by structural v => v
/-- The method `Array.prototype.join` with separator `,` (array `ToString`). -/
def joinElems (H : Host) : List JVal → Option JStr
  | [] => some []
  | x :: r =>
    match (match x with
      | .undefined => some []
      | .null => some []
      | v => jsToString H v) with
    | none => none
    | some s =>
      if r.isEmpty then some s
      else
        match joinElems H r with
        | none => none
        | some t => some (s ++ toUnits "," ++ t)
termination_by structural l => l
end

/-- The expression `s.split(',')[0]`. -/
def splitCommaFirst (s : JStr) : JVal :=
  match splitUnits 44 s with
  | [] => .undefined
  | seg :: _ => .str seg

/-! ## The page -/

/-- An HTTP request handed to `fetch`.  `body` is the value given to
`JSON.stringify`. -/
structure Request where
  method : String
  url : JStr
  headers : List (String × String)
  body : Option JVal

/-- A request `fetch(url)` without options. -/
def Request.get (url : JStr) : Request :=
  ⟨"GET", url, [], none⟩

/-- How a request made by the script ends: `fetch` rejects, or it resolves to a
response with its `ok` flag and the value `response.json()` resolves to
(`none` when `response.json()` rejects). -/
inductive FetchResult where
  | rejected
  | response (ok : Bool) (json : Option JVal)

/-- The DOM state the script reads and writes.  A flag `…Hidden` is the
presence of the class `hidden` on the element. -/
structure UI where
  /-- Children of `#recommendations`. -/
  recommendations : List Child
  loadingHidden : Bool
  errorHidden : Bool
  /-- The property `textContent` of `#error-message`. -/
  errorText : JStr
  modalHidden : Bool
  /-- The markup last assigned to `innerHTML` of `#modal-body`. -/
  modalBody : JStr
  /-- Children of `#modal-body`. -/
  modalContent : List Node
  /-- The property `value` of `#genre-filter`. -/
  genreFilter : JStr
  /-- The property `value` of `#search-input`. -/
  searchInput : JStr
  /-- Children of `#chat-messages`. -/
  chatMessages : List Child
  /-- The property `value` of `#chat-input`. -/
  chatInput : JStr
  /-- Labels passed to `console.error`, oldest first; `none` when the call has
  no label. -/
  console : List (Option String)

def API_URL : JStr := toUnits "http://127.0.0.1:5000/api"

/-! ## Main app logic -/

/-- The template literal assigned to `card.innerHTML` in `createAnimeCard`. -/
def cardMarkup (imageUrl name mainGenre : JStr) : JStr :=
  toUnits "<img class=\"w-full h-auto aspect-[2/3] object-cover rounded-md mb-4\" src=\""
  ++ imageUrl
  ++ toUnits "\" onerror=\"this.onerror=null;this.src=\x27https://placehold.co/300x450/1a1a2e/fff?text=Not+Found\x27;\"><h3 class=\"text-xl font-bold mb-2 truncate\">"
  ++ name
  ++ toUnits "</h3><div><span class=\"inline-block bg-pink-600/50 rounded-full px-3 py-1 text-xs font-semibold text-white\">"
  ++ mainGenre
  ++ toUnits "</span></div>"

/-- The expression `anime.genre ? anime.genre.split(',')[0] : 'N/A'`. -/
def mainGenreOf (genre : JVal) : Option JVal :=
  if genre.truthy then
    match genre with
    | .str s => some (splitCommaFirst s)
    | _ => none
  else some (.str (toUnits "N/A"))

/-- Source: `createAnimeCard(anime)`.  `none` is an exception (`TypeError` or
`URIError`). -/
def createAnimeCard (H : Host) (anime : JVal) : Option Element := do
  let name ← anime.getProp "name"
  let title ← jsToString H name
  let image_url ← anime.getProp "image_url"
  let imageUrl ←
    if image_url.truthy then jsToString H image_url
    else (encodeURIComponent title).map fun e =>
      toUnits "https://placehold.co/300x450/1a1a2e/fff?text=" ++ e
  let genre ← anime.getProp "genre"
  let mainGenre ← mainGenreOf genre
  let badge ← jsToString H mainGenre
  some {
    tag := "div"
    id := ""
    className := "card rounded-lg overflow-hidden p-5 text-left cursor-pointer"
    dataTitle := some title
    innerHTML := cardMarkup imageUrl title badge
    content := setInnerHTML H (cardMarkup imageUrl title badge) }

/-- The statement `animeList.forEach(anime => container.appendChild(createAnimeCard(anime)))`
on an array: the children after the loop and whether it ran to the end. -/
def appendCards (H : Host) : List JVal → List Child → List Child × Bool
  | [], container => (container, true)
  | anime :: rest, container =>
    match createAnimeCard H anime with
    | none => (container, false)
    | some card => appendCards H rest (container ++ [.element card])

/-- Markup of the placeholder paragraph of `displayResults`. -/
def placeholder (message : JStr) : JStr :=
  toUnits "<p class=\"text-gray-400 col-span-full\">" ++ message ++ toUnits "</p>"

/-- Source: `displayResults(animeList, container, message)`.  Returns the
children of the container afterwards and whether the call returned normally
(`false`: it threw). -/
def displayResults (H : Host) (animeList : JVal) (_container : List Child)
    (message : JStr) : List Child × Bool :=
  let container : List Child := (setInnerHTML H []).map Child.node
  if !animeList.truthy || ((animeList.getProp "length").getD .undefined).isZero then
    ((setInnerHTML H (placeholder message)).map Child.node, true)
  else
    match animeList with
    | .arr xs => appendCards H xs container
    | _ => (container, false)

/-- What the `catch` block of `fetchAndDisplayAnime` does. -/
def showFetchError (ui : UI) : UI :=
  { ui with
    console := ui.console ++ [some "Error fetching anime:"]
    errorText := toUnits "Could not connect to the backend."
    errorHidden := false }

/-- The address computed by `fetchAndDisplayAnime(genre)`; `none` when
`encodeURIComponent` throws. -/
def animeUrl (genre : JStr) : Option JStr :=
  if genre ≠ [] then
    (encodeURIComponent genre).map fun e => API_URL ++ toUnits "/anime" ++ (toUnits "?genre=" ++ e)
  else some (API_URL ++ toUnits "/anime" ++ [])

/-- The `try` block of `fetchAndDisplayAnime` after `fetch` has settled: the
page afterwards and whether the block completed without throwing. -/
def fetchAndDisplayAnime_try (H : Host) (r : FetchResult) (ui : UI) : UI × Bool :=
  match r with
  | .rejected => (ui, false)
  | .response ok json =>
    if !ok then (ui, false)
    else match json with
      | none => (ui, false)
      | some animeList =>
        let res := displayResults H animeList ui.recommendations (toUnits "No anime found.")
        ({ ui with recommendations := res.1 }, res.2)

/-- Source: `fetchAndDisplayAnime(genre = '')`, run to completion against the
outcome `r` of its request.  The address is computed before the `try`: when
that throws, the call stops there. -/
def fetchAndDisplayAnime (H : Host) (genre : JStr) (r : FetchResult) (ui : UI) :
    UI × List Request :=
  let ui1 := { ui with
    loadingHidden := false
    recommendations := (setInnerHTML H []).map Child.node
    errorHidden := true }
  match animeUrl genre with
  | none => (ui1, [])
  | some url =>
    let t := fetchAndDisplayAnime_try H r ui1
    let ui2 := if t.2 then t.1 else showFetchError t.1
    ({ ui2 with loadingHidden := true }, [Request.get url])

/-- The `try` block of `searchAnime` after `fetch` has settled. -/
def searchAnime_try (H : Host) (query : JStr) (r : FetchResult) (ui : UI) : UI × Bool :=
  match r with
  | .rejected => (ui, false)
  | .response ok json =>
    if !ok then (ui, false)
    else match json with
      | none => (ui, false)
      | some animeList =>
        let res := displayResults H animeList ui.recommendations
          (toUnits "No results for \"" ++ query ++ toUnits "\".")
        ({ ui with recommendations := res.1 }, res.2)

/-- Source: `searchAnime()`, run to completion against the outcome `r` of its
request (unused when no request is issued). -/
def searchAnime (H : Host) (r : FetchResult) (ui : UI) : UI × List Request :=
  let query := jsTrim ui.searchInput
  if query = [] then (ui, [])
  else
    let ui1 := { ui with
      loadingHidden := false
      recommendations := (setInnerHTML H []).map Child.node
      errorHidden := true
      genreFilter := [] }
    match encodeURIComponent query with
    | none =>
      ({ ui1 with console := ui1.console ++ [some "Error:"], loadingHidden := true }, [])
    | some e =>
      let t := searchAnime_try H query r ui1
      let ui2 := if t.2 then t.1 else { t.1 with console := t.1.console ++ [some "Error:"] }
      ({ ui2 with loadingHidden := true }, [Request.get (API_URL ++ toUnits "/search?q=" ++ e)])

/-! ## Detail modal -/

/-- Markup of the loading spinner shown while the recommendations load. -/
def spinnerMarkup : JStr :=
  toUnits "<div class=\"flex justify-center items-center h-64\"><div class=\"loader\"></div></div>"

/-- Markup written by the `catch` block of `showRecommendationsModal`. -/
def errorMarkup : JStr :=
  toUnits "<p class=\"text-red-400 text-center\">Could not load recommendations.</p>"

/-- Text of the rating line of one recommendation:
`rec.rating ? rec.rating.toFixed(2) : 'N/A'`. -/
def ratingText (H : Host) (rating : JVal) : Option JStr :=
  if rating.truthy then
    match rating with
    | .num q => some (H.toFixed q 2)
    | _ => none
  else some (toUnits "N/A")

/-- The template literal returned by the callback of `recommendations.map`. -/
def rowMarkup (imageUrl name genre rating : JStr) : JStr :=
  toUnits "<div class=\"flex items-center bg-gray-800/50 p-3 rounded-lg\"><img src=\""
  ++ imageUrl
  ++ toUnits "\" onerror=\"this.onerror=null;this.src=\x27https://placehold.co/80x120/16213e/e94560?text=Not+Found\x27;\" class=\"w-16 h-24 object-cover rounded-md mr-4\"><div><h4 class=\"font-bold text-lg\">"
  ++ name
  ++ toUnits "</h4><p class=\"text-sm text-gray-400\">"
  ++ genre
  ++ toUnits "</p><p class=\"text-sm text-yellow-400\">Rating: "
  ++ rating
  ++ toUnits "</p></div></div>"

/-- One row of the modal: the callback given to `recommendations.map`. -/
def recommendationRow (H : Host) (item : JVal) : Option JStr := do
  let image_url ← item.getProp "image_url"
  let name ← item.getProp "name"
  let nameText ← jsToString H name
  let imageUrl ←
    if image_url.truthy then jsToString H image_url
    else (encodeURIComponent nameText).map fun e =>
      toUnits "https://placehold.co/80x120/16213e/e94560?text=" ++ e
  let genre ← item.getProp "genre"
  let genreText ← jsToString H genre
  let rating ← item.getProp "rating"
  let shown ← ratingText H rating
  some (rowMarkup imageUrl nameText genreText shown)

/-- The method `Array.prototype.map` with a callback that may throw. -/
def mapRows (f : JVal → Option JStr) : List JVal → Option (List JStr)
  | [] => some []
  | x :: xs =>
    match f x with
    | none => none
    | some row =>
      match mapRows f xs with
      | none => none
      | some rows => some (row :: rows)

/-- Markup of the modal on success, from the rendered rows. -/
def successMarkup (title : JStr) (rows : List JStr) : JStr :=
  toUnits "<h2 class=\"text-3xl font-bold mb-4\">Because you watched <span class=\"text-pink-400\">"
  ++ title
  ++ toUnits "</span></h2><div class=\"space-y-3\">"
  ++ (if joinAll rows ≠ [] then joinAll rows else toUnits "<p>No similar anime found.</p>")
  ++ toUnits "</div>"

/-- The `try` block of `showRecommendationsModal` after `fetch` has settled:
the markup it assigns to the modal body, or `none` when it throws.  `title` is
the string the argument converts to. -/
def renderRecommendations (H : Host) (title : JStr) (r : FetchResult) : Option JStr :=
  match r with
  | .rejected => none
  | .response _ none => none
  | .response _ (some recommendations) => do
    let error ← recommendations.getProp "error"
    if error.truthy then none
    else match recommendations with
      | .arr xs => (mapRows (recommendationRow H) xs).map (successMarkup title)
      | _ => none

/-- The address computed by `showRecommendationsModal(title)`, with the string
the title converts to; `none` when the conversion or `encodeURIComponent`
throws. -/
def recommendUrl (H : Host) (title : JVal) : Option (JStr × JStr) := do
  let text ← jsToString H title
  let e ← encodeURIComponent text
  some (text, API_URL ++ toUnits "/recommend?title=" ++ e)

/-- The part of `showRecommendationsModal` that runs before the `try`. -/
def showRecommendationsModal_begin (H : Host) (ui : UI) : UI :=
  { ui with
    modalBody := spinnerMarkup
    modalContent := setInnerHTML H spinnerMarkup
    modalHidden := false }

/-- The `catch` block of `showRecommendationsModal`. -/
def showRecommendationsModal_catch (H : Host) (ui : UI) : UI :=
  { ui with
    modalBody := errorMarkup
    modalContent := setInnerHTML H errorMarkup
    console := ui.console ++ [none] }

/-- The part of `showRecommendationsModal` that runs once the request has
settled. -/
def showRecommendationsModal_resume (H : Host) (title : JStr) (r : FetchResult) (ui : UI) :
    UI :=
  match renderRecommendations H title r with
  | some html => { ui with modalBody := html, modalContent := setInnerHTML H html }
  | none => showRecommendationsModal_catch H ui

/-- Source: `showRecommendationsModal(title)`, run to completion against the
outcome `r` of its request (unused when no request is issued). -/
def showRecommendationsModal (H : Host) (title : JVal) (r : FetchResult) (ui : UI) :
    UI × List Request :=
  let ui1 := showRecommendationsModal_begin H ui
  match recommendUrl H title with
  | none => (showRecommendationsModal_catch H ui1, [])
  | some (text, url) => (showRecommendationsModal_resume H text r ui1, [Request.get url])

/-- Source: `fetchRandomAnime()`, run to completion against the outcome `r` of
the request to `/random` and the outcome `r2` of the request the modal issues
(unused when the modal issues none). -/
def fetchRandomAnime (H : Host) (r r2 : FetchResult) (ui : UI) : UI × List Request :=
  let ui1 := { ui with
    loadingHidden := false
    recommendations := (setInnerHTML H []).map Child.node
    errorHidden := true }
  let req := Request.get (API_URL ++ toUnits "/random")
  let name : Option JVal :=
    match r with
    | .rejected => none
    | .response _ none => none
    | .response _ (some anime) => anime.getProp "name"
  match name with
  | none =>
    ({ ui1 with
        console := ui1.console ++ [some "Failed to fetch random anime"]
        loadingHidden := true }, [req])
  | some name =>
    let ui2 := showRecommendationsModal_begin H ui1
    match recommendUrl H name with
    | none =>
      ({ showRecommendationsModal_catch H ui2 with loadingHidden := true }, [req])
    | some (text, url) =>
      (showRecommendationsModal_resume H text r2 { ui2 with loadingHidden := true },
        [req, Request.get url])

/-- Source: `closeModal()`.  It issues no request. -/
def closeModal (ui : UI) : UI × List Request :=
  ({ ui with modalHidden := true }, [])

/-! ## Chatbot logic -/

/-- Source: `addMessage(content, isUser = false)` (scrolling is not part of the
state). -/
def addMessage (H : Host) (content : JStr) (isUser : Bool) (ui : UI) : UI :=
  let bubble : Element := {
    tag := "div"
    id := ""
    className := "chat-bubble p-3 rounded-lg " ++
      (if isUser then "user-bubble self-end" else "bot-bubble self-start")
    dataTitle := none
    innerHTML := content
    content := setInnerHTML H content }
  { ui with chatMessages := ui.chatMessages ++ [.element bubble] }

/-- The element built by `showTypingIndicator`. -/
def typingBubble (H : Host) : Element := {
  tag := "div"
  id := "typing-indicator"
  className := "bot-bubble self-start p-3 rounded-lg typing-indicator"
  dataTitle := none
  innerHTML := toUnits "<span></span><span></span><span></span>"
  content := setInnerHTML H (toUnits "<span></span><span></span><span></span>") }

/-- Source: `showTypingIndicator()`. -/
def showTypingIndicator (H : Host) (ui : UI) : UI :=
  { ui with chatMessages := ui.chatMessages ++ [.element (typingBubble H)] }

/-- The statements `document.getElementById(id)` and, when an element is found,
`.remove()`: the containers are searched in document order and the first
element carrying the id is removed. -/
def removeById (id : String) : List Region → UI → UI
  | [], ui => ui
  | .recommendations :: rest, ui =>
    match removeIdChildren id ui.recommendations with
    | some children => { ui with recommendations := children }
    | none => removeById id rest ui
  | .modalBody :: rest, ui =>
    match removeIdForest id ui.modalContent with
    | some nodes => { ui with modalContent := nodes }
    | none => removeById id rest ui
  | .chatMessages :: rest, ui =>
    match removeIdChildren id ui.chatMessages with
    | some children => { ui with chatMessages := children }
    | none => removeById id rest ui

/-- Source: `removeTypingIndicator()`.  Outside the three containers the static
page holds no element with the id `typing-indicator`. -/
def removeTypingIndicator (H : Host) (ui : UI) : UI :=
  removeById "typing-indicator" H.documentOrder ui

/-- One entry of the card strip: the callback given to `animeList.map` in
`createChatAnimeCards`. -/
def chatCard (H : Host) (anime : JVal) : Option JStr := do
  let image_url ← anime.getProp "image_url"
  let imageUrl ←
    if image_url.truthy then jsToString H image_url
    else some (toUnits "https://placehold.co/100x150/16213e/e94560?text=N/A")
  let name ← anime.getProp "name"
  let nameText ← jsToString H name
  some (toUnits "<div class=\"flex-shrink-0 w-24 text-center\"><img src=\""
    ++ imageUrl
    ++ toUnits "\" class=\"w-24 h-36 object-cover rounded-md\" onerror=\"this.onerror=null;this.src=\x27https://placehold.co/100x150/16213e/e94560?text=N/A\x27;\"><p class=\"text-xs mt-1 truncate\">"
    ++ nameText
    ++ toUnits "</p></div>")

/-- Source: `createChatAnimeCards(animeList)`.  `none` is a `TypeError`. -/
def createChatAnimeCards (H : Host) (animeList : JVal) : Option JStr :=
  if !animeList.truthy || ((animeList.getProp "length").getD .undefined).isZero then some []
  else
    match animeList with
    | .arr xs =>
      (mapRows (chatCard H) xs).map fun cards =>
        toUnits "<div class=\"flex gap-2 overflow-x-auto p-1 mt-2\">" ++ joinAll cards
          ++ toUnits "</div>"
    | _ => none

/-- The message of the bot when the exchange fails. -/
def chatFallback : JStr :=
  toUnits "Oops! I couldn\x27t connect to my brain. Please try again."

/-- The request issued by `handleSendMessage` for a trimmed message. -/
def chatRequest (message : JStr) : Request :=
  { method := "POST"
    url := API_URL ++ toUnits "/chatbot"
    headers := [("Content-Type", "application/json")]
    body := some (.obj [("message", .str message)]) }

/-- What the `catch` block of `handleSendMessage` does. -/
def chatFailure (H : Host) (ui : UI) : UI :=
  let ui1 := addMessage H chatFallback false (removeTypingIndicator H ui)
  { ui1 with console := ui1.console ++ [some "Chatbot error:"] }

/-- The expression `data.reply + createChatAnimeCards(data.anime_list)`. -/
def botContent (H : Host) (data : JVal) : Option JStr := do
  let reply ← data.getProp "reply"
  let anime_list ← data.getProp "anime_list"
  let cards ← createChatAnimeCards H anime_list
  let replyText ← jsToString H reply
  some (replyText ++ cards)

/-- Source: `handleSendMessage()`, run to completion against the outcome `r` of
its request (unused when no request is issued). -/
def handleSendMessage (H : Host) (r : FetchResult) (ui : UI) : UI × List Request :=
  let message := jsTrim ui.chatInput
  if message = [] then (ui, [])
  else
    let ui1 := addMessage H message true ui
    let ui2 := { ui1 with chatInput := [] }
    let ui3 := showTypingIndicator H ui2
    let done : UI :=
      match r with
      | .rejected => chatFailure H ui3
      | .response _ none => chatFailure H ui3
      | .response _ (some data) =>
        let ui4 := removeTypingIndicator H ui3
        match botContent H data with
        | some content => addMessage H content false ui4
        | none => chatFailure H ui4
    (done, [chatRequest message])

/-! ## Typed catalogue records -/

/-- A catalogue item as the API documents it, with well-formed text. -/
structure CatalogItem where
  name : String
  genre : Option String
  image_url : Option String
  rating : Option ℚ

/-- Field of a JSON object that may be absent. -/
def optField (key : String) : Option JVal → List (String × JVal)
  | none => []
  | some v => [(key, v)]

/-- The JSON object of a catalogue item; an absent field is a missing key. -/
def CatalogItem.toJVal (a : CatalogItem) : JVal :=
  .obj ([("name", .str (toUnits a.name))]
    ++ optField "genre" (a.genre.map fun g => .str (toUnits g))
    ++ optField "image_url" (a.image_url.map fun u => .str (toUnits u))
    ++ optField "rating" (a.rating.map .num))

/-! ## Reference definitions used by the statements -/

/-- The result of `encodeURIComponent` on well-formed text: every scalar value
other than the unreserved ones becomes the escapes of its UTF-8 bytes. -/
def encodedText (s : String) : JStr :=
  s.data.flatMap fun c =>
    if isUnreserved c.toNat then [c.toNat] else percentBytes (utf8Bytes c.toNat)

/-- The part of a genre string before its first comma. -/
def beforeFirstComma (genre : String) : JStr :=
  (toUnits genre).takeWhile fun u => u ≠ 44

/-- Badge text of a card as the catalogue view describes it: the first genre,
or `N/A` when there is none. -/
def expectedBadge (a : CatalogItem) : JStr :=
  match a.genre with
  | none => toUnits "N/A"
  | some g => if g = "" then toUnits "N/A" else beforeFirstComma g

/-- The generated placeholder image of a card, keyed by the item name. -/
def placeholderImage (name : String) : JStr :=
  toUnits "https://placehold.co/300x450/1a1a2e/fff?text=" ++ encodedText name

/-- Image source of a card: the image of the item when it has a non-empty one,
the generated placeholder otherwise. -/
def expectedImage (a : CatalogItem) : JStr :=
  match a.image_url with
  | none => placeholderImage a.name
  | some u => if u = "" then placeholderImage a.name else toUnits u

/-- The card of a typed catalogue item. -/
def expectedCard (H : Host) (a : CatalogItem) : Element :=
  { tag := "div"
    id := ""
    className := "card rounded-lg overflow-hidden p-5 text-left cursor-pointer"
    dataTitle := some (toUnits a.name)
    innerHTML := cardMarkup (expectedImage a) (toUnits a.name) (expectedBadge a)
    content := setInnerHTML H (cardMarkup (expectedImage a) (toUnits a.name) (expectedBadge a)) }

/-- A request failed: transport failure or non-OK status. -/
def FetchResult.failed : FetchResult → Bool
  | .rejected => true
  | .response ok _ => !ok

/-- A child of the transcript is a typing indicator: it carries the id
`typing-indicator`. -/
def isTypingIndicator : Child → Bool
  | .node (.text _) => false
  | .node (.elem _ attrs _) =>
    decide (attrs.lookup (toUnits "id") = some (toUnits "typing-indicator"))
  | .element e => decide (e.id = "typing-indicator")

/-- The page holds an element with the given id in one of its containers:
`document.getElementById` finds one. -/
def pageHoldsId (id : String) (ui : UI) : Bool :=
  (removeIdChildren id ui.recommendations).isSome ||
  (removeIdForest id ui.modalContent).isSome ||
  (removeIdChildren id ui.chatMessages).isSome

/-- The markup holds an element with the given id once parsed. -/
def markupHoldsId (H : Host) (id : String) (html : JStr) : Bool :=
  (removeIdForest id (setInnerHTML H html)).isSome

/-- The user bubble of a chat turn. -/
def userBubble (H : Host) (message : JStr) : Child :=
  .element ⟨"div", "", "chat-bubble p-3 rounded-lg user-bubble self-end", none, message,
    setInnerHTML H message⟩

/-- A bot bubble with the given content. -/
def botBubble (H : Host) (content : JStr) : Child :=
  .element ⟨"div", "", "chat-bubble p-3 rounded-lg bot-bubble self-start", none, content,
    setInnerHTML H content⟩

/-- Text without markup: no `<`, no `&`, no carriage return, no NUL. -/
def isPlainText (s : JStr) : Bool :=
  s.all fun u => u != 60 && u != 38 && u != 13 && u != 0

/-- The placeholder paragraph with the given text. -/
def paragraph (message : JStr) : Node :=
  .elem (toUnits "p") [(toUnits "class", toUnits "text-gray-400 col-span-full")]
    (if message = [] then [] else [.text message])

/-- Rounding to `d` decimals on the exact value, the way `toFixed` prints a
double below `1e21`: nearest multiple of `10^-d`, ties upwards in magnitude. -/
def toFixedExact (q : ℚ) (d : Nat) : JStr :=
  let n : Nat := (2 * q.num.natAbs * 10 ^ d + q.den) / (2 * q.den)
  let digits := toUnits (Nat.repr n)
  let padded := List.replicate (d + 1 - digits.length) 48 ++ digits
  let whole := padded.take (padded.length - d)
  let frac := padded.drop (padded.length - d)
  (if q < 0 then [45] else []) ++ whole ++ (if d = 0 then [] else 46 :: frac)

/-! ### A parser for the examples

The examples below need a concrete parser.  `sampleParse` reads well-nested
markup made of start tags with double-quoted attribute values, end tags and
text without character references, which is how the browser reads such markup
too. -/

/-- A token of the sample parser. -/
inductive Token where
  | text (data : JStr)
  | startTag (name : JStr) (attrs : List (JStr × JStr))
  | endTag (name : JStr)

/-- The attributes written after a tag name. -/
def readAttrs : Nat → JStr → List (JStr × JStr)
  | 0, _ => []
  | fuel + 1, s =>
    match s.dropWhile (fun u => u == 32) with
    | [] => []
    | t =>
      match t.span (fun u => u != 61) with
      | (name, 61 :: 34 :: rest) =>
        match rest.span (fun u => u != 34) with
        | (value, rest2) => (name, value) :: readAttrs fuel (rest2.drop 1)
      | (name, _) => [(name, [])]

/-- The tokens of a piece of markup. -/
def tokenize : Nat → JStr → List Token
  | 0, _ => []
  | _ + 1, [] => []
  | fuel + 1, 60 :: rest =>
    match rest.span (fun u => u != 62) with
    | (47 :: name, after) => .endTag name :: tokenize fuel (after.drop 1)
    | (inside, after) =>
      match inside.span (fun u => u != 32) with
      | (name, attrText) =>
        .startTag name (readAttrs attrText.length attrText) :: tokenize fuel (after.drop 1)
  | fuel + 1, u :: rest =>
    match (u :: rest).span (fun u => u != 60) with
    | (t, after) => .text t :: tokenize fuel after

/-- An element that is still open, with the children read so far, last first. -/
structure OpenElement where
  tag : JStr
  attrs : List (JStr × JStr)
  kids : List Node

/-- Elements without content. -/
def isVoid (tag : JStr) : Bool :=
  tag = toUnits "img" || tag = toUnits "br" || tag = toUnits "hr" || tag = toUnits "input"

/-- The tree builder of the sample parser: open elements innermost first, and
the finished top-level nodes last first. -/
def buildTree : List Token → List OpenElement → List Node → List Node
  | [], [], root => root.reverse
  | [], o :: stack, root =>
    let top := stack.foldl
      (fun (n : Node) p => Node.elem p.tag p.attrs (n :: p.kids).reverse)
      (Node.elem o.tag o.attrs o.kids.reverse)
    (top :: root).reverse
  | .text d :: ts, [], root => buildTree ts [] (.text d :: root)
  | .text d :: ts, o :: stack, root => buildTree ts ({ o with kids := .text d :: o.kids } :: stack) root
  | .startTag name attrs :: ts, [], root =>
    if isVoid name then buildTree ts [] (.elem name attrs [] :: root)
    else buildTree ts [⟨name, attrs, []⟩] root
  | .startTag name attrs :: ts, o :: stack, root =>
    if isVoid name then buildTree ts ({ o with kids := .elem name attrs [] :: o.kids } :: stack) root
    else buildTree ts (⟨name, attrs, []⟩ :: o :: stack) root
  | .endTag _ :: ts, [], root => buildTree ts [] root
  | .endTag _ :: ts, [o], root => buildTree ts [] (.elem o.tag o.attrs o.kids.reverse :: root)
  | .endTag _ :: ts, o :: p :: stack, root =>
    buildTree ts ({ p with kids := .elem o.tag o.attrs o.kids.reverse :: p.kids } :: stack) root

/-- The sample parser. -/
def sampleParse (html : JStr) : List Node :=
  buildTree (tokenize (html.length + 1) html) [] []

/-- A host for the examples: `toFixed` by exact rounding, integers printed as
decimal numerals (no example prints another number), the sample parser, and a
page with the catalogue grid first, then the modal, then the chat widget. -/
def sampleHost : Host :=
  { numberToString := fun q => (if q < 0 then [45] else []) ++ toUnits (Nat.repr q.num.natAbs)
    toFixed := toFixedExact
    parseHTML := sampleParse
    documentOrder := [.recommendations, .modalBody, .chatMessages]
    documentOrder_complete := fun r => by cases r <;> simp }

/-- A page for the examples: an old placeholder in the grid, a greeting in the
chat, blank search and chat inputs. -/
def samplePage : UI :=
  { recommendations := [.node (paragraph (toUnits "old"))]
    loadingHidden := true
    errorHidden := true
    errorText := []
    modalHidden := true
    modalBody := []
    modalContent := []
    genreFilter := toUnits "Action"
    searchInput := toUnits "  "
    chatMessages := [botBubble sampleHost (toUnits "Hello!")]
    chatInput := toUnits " \t"
    console := [] }

/-- The example page with `naruto` typed into the search box and `hello` typed
into the chat box. -/
def typedPage : UI :=
  { samplePage with searchInput := toUnits " naruto ", chatInput := toUnits "hello " }

/-- The example page with a chat message that is markup carrying the id of the
typing indicator. -/
def injectedPage : UI :=
  { samplePage with chatInput := toUnits "<i id=\"typing-indicator\"></i>hi" }

/-- The example page after the catalogue has shown one item whose name is
markup carrying the id of the typing indicator. -/
def namedPage : UI :=
  (fetchAndDisplayAnime sampleHost []
    (.response true (some (.arr [.obj [("name", .str (toUnits "<i id=\"typing-indicator\"></i>")),
      ("image_url", .str (toUnits "x.png"))]])))
    typedPage).1

/-! ## Auxiliary facts -/

theorem char_valid (c : Char) :
    c.toNat < 55296 ∨ (57343 < c.toNat ∧ c.toNat < 1114112) :=
  c.valid

theorem charUnits_ne_nil (c : Char) : charUnits c ≠ [] := by
  unfold charUnits
  split <;> simp

theorem toUnits_eq_nil (s : String) : toUnits s = [] ↔ s = "" := by
  obtain ⟨l⟩ := s
  cases l with
  | nil => simp [toUnits]
  | cons c cs =>
    have h := charUnits_ne_nil c
    simp [toUnits, h]
    intro hs
    exact absurd (congrArg String.data hs) (by simp)

theorem isUnreserved_small (n : Nat) (h : isUnreserved n = true) : n < 128 := by
  simp only [isUnreserved, Bool.or_eq_true, Bool.and_eq_true, decide_eq_true_eq] at h
  omega

theorem encode_cons_unreserved (u : Nat) (rest : JStr) (h : isUnreserved u = true) :
    encodeURIComponent (u :: rest) = (encodeURIComponent rest).map (u :: ·) := by
  rw [encodeURIComponent.eq_def]
  simp [h]

theorem encode_cons_plain (u : Nat) (rest : JStr) (h : ¬ isUnreserved u = true)
    (h1 : ¬ (56320 ≤ u ∧ u ≤ 57343)) (h2 : ¬ (55296 ≤ u ∧ u ≤ 56319)) :
    encodeURIComponent (u :: rest)
      = (encodeURIComponent rest).map (percentBytes (utf8Bytes u) ++ ·) := by
  rw [encodeURIComponent.eq_def]
  simp only [h, h1, h2, ↓reduceIte, Bool.false_eq_true]

theorem encode_cons_pair (u v : Nat) (rest : JStr) (h : ¬ isUnreserved u = true)
    (h1 : ¬ (56320 ≤ u ∧ u ≤ 57343)) (h2 : 55296 ≤ u ∧ u ≤ 56319)
    (h3 : 56320 ≤ v ∧ v ≤ 57343) :
    encodeURIComponent (u :: v :: rest)
      = (encodeURIComponent rest).map
          (percentBytes (utf8Bytes ((u - 55296) * 1024 + (v - 56320) + 65536)) ++ ·) := by
  rw [encodeURIComponent]
  simp only [h, h1, h2, h3, ↓reduceIte, Bool.false_eq_true, and_self]

theorem encodeURIComponent_units (l : List Char) :
    encodeURIComponent (l.flatMap charUnits)
      = some (l.flatMap fun c =>
          if isUnreserved c.toNat then [c.toNat] else percentBytes (utf8Bytes c.toNat)) := by
  induction l with
  | nil => rfl
  | cons c cs ih =>
    have hv := char_valid c
    simp only [List.flatMap_cons]
    by_cases hc : c.toNat < 65536
    · simp only [charUnits, hc, ↓reduceIte, List.singleton_append]
      by_cases hu : isUnreserved c.toNat = true
      · rw [encode_cons_unreserved _ _ hu, ih]
        simp [hu]
      · have h1 : ¬ (56320 ≤ c.toNat ∧ c.toNat ≤ 57343) := by omega
        have h2 : ¬ (55296 ≤ c.toNat ∧ c.toNat ≤ 56319) := by omega
        rw [encode_cons_plain _ _ hu h1 h2, ih]
        simp [hu]
    · have hu : ¬ isUnreserved c.toNat = true := fun h => by
        have := isUnreserved_small _ h
        omega
      have hhi : ¬ isUnreserved (55296 + (c.toNat - 65536) / 1024) = true := fun h => by
        have := isUnreserved_small _ h
        omega
      have h1 : ¬ (56320 ≤ 55296 + (c.toNat - 65536) / 1024 ∧
          55296 + (c.toNat - 65536) / 1024 ≤ 57343) := by omega
      have h2 : 55296 ≤ 55296 + (c.toNat - 65536) / 1024 ∧
          55296 + (c.toNat - 65536) / 1024 ≤ 56319 := by omega
      have h3 : 56320 ≤ 56320 + (c.toNat - 65536) % 1024 ∧
          56320 + (c.toNat - 65536) % 1024 ≤ 57343 := by omega
      have h4 : (55296 + (c.toNat - 65536) / 1024 - 55296) * 1024
          + (56320 + (c.toNat - 65536) % 1024 - 56320) + 65536 = c.toNat := by omega
      simp only [charUnits, hc, ↓reduceIte, List.cons_append, List.nil_append]
      rw [encode_cons_pair _ _ _ hhi h1 h2 h3, ih, h4]
      simp [hu]

theorem encodeURIComponent_toUnits (s : String) :
    encodeURIComponent (toUnits s) = some (encodedText s) :=
  encodeURIComponent_units s.data

theorem placeholder_ne_nil (message : JStr) : placeholder message ≠ [] := by
  have h : (toUnits "</p>") ≠ [] := by decide
  simp [placeholder, h]

theorem setInnerHTML_placeholder (H : Host) (message : JStr) :
    setInnerHTML H (placeholder message) = H.parseHTML (placeholder message) := by
  simp [setInnerHTML, placeholder_ne_nil]

theorem splitUnits_head (sep : Nat) (cs : JStr) :
    ∃ rest, splitUnits sep cs = (cs.takeWhile fun c => c ≠ sep) :: rest := by
  induction cs with
  | nil => exact ⟨[], rfl⟩
  | cons c cs ih =>
    obtain ⟨rest, hrest⟩ := ih
    by_cases hc : c = sep
    · exact ⟨splitUnits sep cs, by simp [splitUnits, hc]⟩
    · exact ⟨rest, by simp [splitUnits, hc, hrest]⟩

theorem splitCommaFirst_eq (g : String) :
    splitCommaFirst (toUnits g) = .str (beforeFirstComma g) := by
  obtain ⟨rest, h⟩ := splitUnits_head 44 (toUnits g)
  simp [splitCommaFirst, beforeFirstComma, h]

theorem jsTrim_blank (s : JStr) (h : ∀ c ∈ s, isTrimmed c = true) : jsTrim s = [] := by
  have h1 : s.dropWhile isTrimmed = [] := by
    rw [List.dropWhile_eq_nil_iff]
    exact h
  simp [jsTrim, h1]

theorem successMarkup_ne_spinner (title : JStr) (rows : List JStr) :
    successMarkup title rows ≠ spinnerMarkup := by
  intro h
  have h2 := congrArg (fun s : JStr => s.take 2) h
  have ha : toUnits "<h2 class=\"text-3xl font-bold mb-4\">Because you watched <span class=\"text-pink-400\">"
      = 60 :: 104 :: (toUnits "<h2 class=\"text-3xl font-bold mb-4\">Because you watched <span class=\"text-pink-400\">").drop 2 := by
    decide
  have hb : spinnerMarkup.take 2 = [60, 100] := by decide
  simp only [successMarkup, List.append_assoc] at h2
  rw [ha] at h2
  simp [hb] at h2

theorem createAnimeCard_item (H : Host) (a : CatalogItem) :
    createAnimeCard H a.toJVal = some (expectedCard H a) := by
  obtain ⟨name, genre, image_url, rating⟩ := a
  cases genre <;> cases image_url <;> cases rating <;>
    simp [createAnimeCard, CatalogItem.toJVal, optField, JVal.getProp, List.lookup,
      mainGenreOf, JVal.truthy, jsToString, expectedCard, expectedImage, expectedBadge,
      placeholderImage, splitCommaFirst_eq, toUnits_eq_nil, encodeURIComponent_toUnits] <;>
    (split_ifs <;> simp [jsToString])

theorem appendCards_of_cards (H : Host) :
    ∀ (xs : List JVal) (cards : List Element) (container : List Child),
      xs.map (createAnimeCard H) = cards.map some →
      appendCards H xs container = (container ++ cards.map Child.element, true) := by
  intro xs
  induction xs with
  | nil =>
    intro cards container h
    cases cards with
    | nil => simp [appendCards]
    | cons c cs => simp at h
  | cons x xs ih =>
    intro cards container h
    cases cards with
    | nil => simp at h
    | cons c cs =>
      simp only [List.map_cons, List.cons.injEq] at h
      simp [appendCards, h.1, ih cs _ h.2]

theorem appendCards_throws (H : Host) :
    ∀ (xs : List JVal) (container : List Child),
      (appendCards H xs container).2 = false ↔ ∃ x ∈ xs, createAnimeCard H x = none := by
  intro xs
  induction xs with
  | nil => intro container; simp [appendCards]
  | cons x xs ih =>
    intro container
    cases hx : createAnimeCard H x with
    | none => simp [appendCards, hx]
    | some card => simp [appendCards, hx, ih]

theorem cards_of_items (H : Host) (items : List CatalogItem) :
    (items.map fun x => createAnimeCard H x.toJVal) = (items.map (expectedCard H)).map some := by
  simp [createAnimeCard_item]

theorem length_succ_ne_zero (n : Nat) : (((n : ℚ) + 1 = 0) = False) := by
  apply eq_false
  positivity

theorem displayResults_items (H : Host) (a : CatalogItem) (rest : List CatalogItem)
    (container : List Child) (message : JStr) :
    displayResults H (.arr ((a :: rest).map CatalogItem.toJVal)) container message
      = (((a :: rest).map (expectedCard H)).map Child.element, true) := by
  have h := appendCards_of_cards H ((a :: rest).map CatalogItem.toJVal)
    ((a :: rest).map (expectedCard H)) [] (by simp [createAnimeCard_item])
  simp only [List.nil_append] at h
  simp [displayResults, JVal.truthy, JVal.getProp, JVal.isZero, setInnerHTML,
    length_succ_ne_zero]
  simpa using h

theorem displayResults_throws (H : Host) (body : JVal) (container : List Child)
    (message : JStr) :
    (displayResults H body container message).2 = false ↔
      (body.truthy = true ∧ ((body.getProp "length").getD .undefined).isZero = false ∧
        ∀ xs, body = .arr xs → ∃ x ∈ xs, createAnimeCard H x = none) := by
  by_cases hc : (!body.truthy || ((body.getProp "length").getD .undefined).isZero) = true
  · have h1 : (displayResults H body container message).2 = true := by
      simp [displayResults, hc]
    simp only [Bool.or_eq_true, Bool.not_eq_true'] at hc
    rw [h1]
    constructor
    · intro h; cases h
    · rintro ⟨h2, h3, -⟩
      rcases hc with hc | hc
      · rw [h2] at hc; cases hc
      · rw [h3] at hc; cases hc
  · have hc2 := hc
    simp only [Bool.or_eq_true, Bool.not_eq_true', not_or, Bool.not_eq_false,
      Bool.not_eq_true] at hc2
    cases body with
    | arr xs =>
      simp only [displayResults, hc, Bool.false_eq_true, ↓reduceIte]
      rw [appendCards_throws]
      constructor
      · intro h
        exact ⟨hc2.1, hc2.2, fun ys hy => by cases hy; exact h⟩
      · intro h
        exact h.2.2 xs rfl
    | undefined => simp [JVal.truthy] at hc2
    | null => simp [JVal.truthy] at hc2
    | bool b => simp [displayResults, hc, hc2.1, hc2.2]
    | num q => simp [displayResults, hc, hc2.1, hc2.2]
    | str s => simp [displayResults, hc, hc2.1, hc2.2]
    | obj fields => simp [displayResults, hc, hc2.1, hc2.2]

theorem renderRecommendations_some (H : Host) (title : JStr) (r : FetchResult) (html : JStr)
    (h : renderRecommendations H title r = some html) :
    ∃ rows, html = successMarkup title rows := by
  cases r with
  | rejected => simp [renderRecommendations] at h
  | response ok json =>
    cases json with
    | none => simp [renderRecommendations] at h
    | some v =>
      cases v with
      | arr xs =>
        simp only [renderRecommendations, JVal.getProp] at h
        cases hm : mapRows (recommendationRow H) xs with
        | none => simp [hm] at h
        | some rows =>
          refine ⟨rows, ?_⟩
          simp [hm] at h
          exact h.2.symm
      | undefined => simp [renderRecommendations, JVal.getProp] at h
      | null => simp [renderRecommendations, JVal.getProp] at h
      | bool b => simp [renderRecommendations, JVal.getProp] at h
      | num q => simp [renderRecommendations, JVal.getProp] at h
      | str t => simp [renderRecommendations, JVal.getProp] at h
      | obj fields => simp [renderRecommendations, JVal.getProp] at h

theorem renderRecommendations_obj (H : Host) (title : JStr) (ok : Bool)
    (fields : List (String × JVal)) :
    renderRecommendations H title (.response ok (some (.obj fields))) = none := by
  simp [renderRecommendations, JVal.getProp]

theorem recommendationRow_item (H : Host) (a : CatalogItem) :
    recommendationRow H a.toJVal
      = some (rowMarkup
          (match a.image_url with
            | none => toUnits "https://placehold.co/80x120/16213e/e94560?text=" ++ encodedText a.name
            | some u =>
              if u = "" then
                toUnits "https://placehold.co/80x120/16213e/e94560?text=" ++ encodedText a.name
              else toUnits u)
          (toUnits a.name)
          (match a.genre with
            | none => toUnits "undefined"
            | some g => toUnits g)
          (match a.rating with
            | none => toUnits "N/A"
            | some q => if q = 0 then toUnits "N/A" else H.toFixed q 2)) := by
  obtain ⟨name, genre, image_url, rating⟩ := a
  cases genre <;> cases image_url <;> cases rating <;>
    simp [recommendationRow, CatalogItem.toJVal, optField, JVal.getProp, List.lookup,
      ratingText, JVal.truthy, jsToString, toUnits_eq_nil, encodeURIComponent_toUnits] <;>
    (split_ifs <;> simp_all [jsToString])

theorem rows_of_items (H : Host) (l : List CatalogItem) :
    ∃ rows,
      (l.map fun a => recommendationRow H a.toJVal) = rows.map some ∧
      mapRows (recommendationRow H) (l.map CatalogItem.toJVal) = some rows := by
  induction l with
  | nil => exact ⟨[], rfl, rfl⟩
  | cons a l ih =>
    obtain ⟨rows, h1, h2⟩ := ih
    obtain ⟨row, hrow⟩ : ∃ row, recommendationRow H a.toJVal = some row :=
      ⟨_, recommendationRow_item H a⟩
    refine ⟨row :: rows, ?_, ?_⟩
    · simp only [List.map_cons, h1, hrow]
    · simp only [List.map_cons, mapRows, h2, hrow]

theorem recommendUrl_text (H : Host) (title : String) :
    recommendUrl H (.str (toUnits title))
      = some (toUnits title, API_URL ++ toUnits "/recommend?title=" ++ encodedText title) := by
  simp [recommendUrl, jsToString, encodeURIComponent_toUnits]

theorem removeIdChildren_append (id : String) (l l2 : List Child)
    (h : removeIdChildren id l = none) :
    removeIdChildren id (l ++ l2) = (removeIdChildren id l2).map (l ++ ·) := by
  induction l with
  | nil => simp
  | cons c l ih =>
    cases c with
    | node n =>
      simp only [removeIdChildren] at h
      cases hn : removeIdNode id n with
      | some x => cases x <;> simp [hn] at h
      | none =>
        simp only [hn, Option.map_eq_none'] at h
        simp [removeIdChildren, hn, ih h, Function.comp_def]
    | element e =>
      simp only [removeIdChildren] at h
      by_cases he : e.id = id
      · simp [he] at h
      · simp only [he, ↓reduceIte] at h
        cases hf : removeIdForest id e.content with
        | some x => simp [hf] at h
        | none =>
          simp only [hf, Option.map_eq_none'] at h
          simp [removeIdChildren, he, hf, ih h, Function.comp_def]

theorem removeById_found (id : String) (order : List Region) (ui : UI) (c : List Child)
    (hr : removeIdChildren id ui.recommendations = none)
    (hm : removeIdForest id ui.modalContent = none)
    (hc : removeIdChildren id ui.chatMessages = some c)
    (hin : Region.chatMessages ∈ order) :
    removeById id order ui = { ui with chatMessages := c } := by
  induction order with
  | nil => simp at hin
  | cons r rest ih =>
    cases r with
    | recommendations =>
      simp only [removeById, hr]
      exact ih (by simpa using hin)
    | modalBody =>
      simp only [removeById, hm]
      exact ih (by simpa using hin)
    | chatMessages => simp only [removeById, hc]

theorem removeById_absent (id : String) (order : List Region) (ui : UI)
    (hr : removeIdChildren id ui.recommendations = none)
    (hm : removeIdForest id ui.modalContent = none)
    (hc : removeIdChildren id ui.chatMessages = none) :
    removeById id order ui = ui := by
  induction order with
  | nil => rfl
  | cons r rest ih => cases r <;> simp only [removeById, hr, hm, hc, ih]

theorem pageHoldsId_false (id : String) (ui : UI) (h : pageHoldsId id ui = false) :
    removeIdChildren id ui.recommendations = none ∧
    removeIdForest id ui.modalContent = none ∧
    removeIdChildren id ui.chatMessages = none := by
  cases h1 : removeIdChildren id ui.recommendations <;>
    cases h2 : removeIdForest id ui.modalContent <;>
    cases h3 : removeIdChildren id ui.chatMessages <;>
    simp_all [pageHoldsId]

theorem handleSendMessage_transcript (H : Host) (r : FetchResult) (ui : UI)
    (hm : jsTrim ui.chatInput ≠ [])
    (hpage : pageHoldsId "typing-indicator" ui = false)
    (hmsg : markupHoldsId H "typing-indicator" (jsTrim ui.chatInput) = false) :
    (handleSendMessage H r ui).1.chatMessages
      = ui.chatMessages ++ [userBubble H (jsTrim ui.chatInput),
          botBubble H (match r with
            | .response _ (some data) => (botContent H data).getD chatFallback
            | _ => chatFallback)] := by
  obtain ⟨hr, hmo, hc⟩ := pageHoldsId_false _ _ hpage
  have hcontent : removeIdForest "typing-indicator" (setInnerHTML H (jsTrim ui.chatInput))
      = none := by
    simpa [markupHoldsId] using hmsg
  have huser : removeIdChildren "typing-indicator"
      (ui.chatMessages ++ [userBubble H (jsTrim ui.chatInput)]) = none := by
    rw [removeIdChildren_append _ _ _ hc]
    simp [removeIdChildren, userBubble, hcontent]
  have htyping : removeIdChildren "typing-indicator"
      ((ui.chatMessages ++ [userBubble H (jsTrim ui.chatInput)])
        ++ [Child.element (typingBubble H)])
      = some (ui.chatMessages ++ [userBubble H (jsTrim ui.chatInput)]) := by
    rw [removeIdChildren_append _ _ _ huser]
    simp [removeIdChildren, typingBubble]
  -- the page when the request settles, and after the indicator has been removed
  let ui3 : UI := showTypingIndicator H { addMessage H (jsTrim ui.chatInput) true ui with
    chatInput := [] }
  have h3 : removeTypingIndicator H ui3
      = { ui3 with chatMessages := ui.chatMessages ++ [userBubble H (jsTrim ui.chatInput)] } :=
    removeById_found _ _ ui3 _ hr hmo htyping (H.documentOrder_complete _)
  have h4 : removeTypingIndicator H (removeTypingIndicator H ui3)
      = removeTypingIndicator H ui3 := by
    rw [h3]
    exact removeById_absent _ _ _ hr hmo huser
  have h5 : (removeTypingIndicator H ui3).chatMessages
      = ui.chatMessages ++ [userBubble H (jsTrim ui.chatInput)] := by
    rw [h3]
  have hF : ∀ u : UI, (chatFailure H u).chatMessages
      = (removeTypingIndicator H u).chatMessages ++ [botBubble H chatFallback] :=
    fun _ => rfl
  have hA : ∀ (c : JStr) (u : UI), (addMessage H c false u).chatMessages
      = u.chatMessages ++ [botBubble H c] :=
    fun _ _ => rfl
  cases r with
  | rejected =>
    have hs : (handleSendMessage H .rejected ui).1 = chatFailure H ui3 := by
      simp only [handleSendMessage, hm, ↓reduceIte]
    rw [hs, hF, h5]
    simp
  | response ok json =>
    cases json with
    | none =>
      have hs : (handleSendMessage H (.response ok none) ui).1 = chatFailure H ui3 := by
        simp only [handleSendMessage, hm, ↓reduceIte]
      rw [hs, hF, h5]
      simp
    | some data =>
      cases hb : botContent H data with
      | none =>
        have hs : (handleSendMessage H (.response ok (some data)) ui).1
            = chatFailure H (removeTypingIndicator H ui3) := by
          simp only [handleSendMessage, hm, ↓reduceIte, hb]
        rw [hs, hF, h4, h5]
        simp [hb]
      | some content =>
        have hs : (handleSendMessage H (.response ok (some data)) ui).1
            = addMessage H content false (removeTypingIndicator H ui3) := by
          simp only [handleSendMessage, hm, ↓reduceIte, hb]
        rw [hs, hA, h5]
        simp [hb]

theorem transcript_after_turn (H : Host) (old : List Child) (m content : JStr)
    (h : removeIdChildren "typing-indicator" old = none) :
    ∀ c ∈ old ++ [userBubble H m, botBubble H content], isTypingIndicator c = false := by
  have hold : ∀ (l : List Child), removeIdChildren "typing-indicator" l = none →
      ∀ c ∈ l, isTypingIndicator c = false := by
    intro l
    induction l with
    | nil => intro _ c hc; simp at hc
    | cons d l ih =>
      intro hl c hc
      cases d with
      | node n =>
        simp only [removeIdChildren] at hl
        cases hn : removeIdNode "typing-indicator" n with
        | some x => cases x <;> simp [hn] at hl
        | none =>
          simp only [hn, Option.map_eq_none'] at hl
          rcases List.mem_cons.mp hc with hc | hc
          · subst hc
            cases n with
            | text d => rfl
            | elem tag attrs kids =>
              simp only [removeIdNode] at hn
              by_cases ha : attrs.lookup (toUnits "id") = some (toUnits "typing-indicator")
              · simp [ha] at hn
              · simp [isTypingIndicator, ha]
          · exact ih hl c hc
      | element e =>
        simp only [removeIdChildren] at hl
        by_cases he : e.id = "typing-indicator"
        · simp [he] at hl
        · simp only [he, ↓reduceIte] at hl
          cases hf : removeIdForest "typing-indicator" e.content with
          | some x => simp [hf] at hl
          | none =>
            simp only [hf, Option.map_eq_none'] at hl
            rcases List.mem_cons.mp hc with hc | hc
            · subst hc
              simp [isTypingIndicator, he]
            · exact ih hl c hc
  intro c hc
  simp only [List.mem_append, List.mem_cons, List.mem_singleton, List.not_mem_nil,
    or_false] at hc
  rcases hc with hc | hc | hc
  · exact hold old h c hc
  · subst hc; rfl
  · subst hc; rfl

theorem chatCard_item (H : Host) (a : CatalogItem) :
    ∃ card, chatCard H a.toJVal = some card := by
  obtain ⟨name, genre, image_url, rating⟩ := a
  cases genre <;> cases image_url <;> cases rating <;>
    simp [chatCard, CatalogItem.toJVal, optField, JVal.getProp, List.lookup, jsToString] <;>
    (split_ifs <;> simp)

theorem chatCards_items (H : Host) (l : List CatalogItem) :
    ∃ cards, mapRows (chatCard H) (l.map CatalogItem.toJVal) = some cards := by
  induction l with
  | nil => exact ⟨[], rfl⟩
  | cons a l ih =>
    obtain ⟨cards, h⟩ := ih
    obtain ⟨card, hcard⟩ := chatCard_item H a
    exact ⟨card :: cards, by simp only [List.map_cons, mapRows, h, hcard]⟩
theorem takeDrop_stop (p : Nat → Bool) (l : JStr) (x : Nat) (xs : JStr)
    (hl : ∀ a ∈ l, p a = true) (hx : p x = false) :
    (l ++ x :: xs).takeWhile p = l ∧ (l ++ x :: xs).dropWhile p = x :: xs := by
  rw [List.takeWhile_append_of_pos hl, List.dropWhile_append_of_pos hl]
  simp [List.takeWhile, List.dropWhile, hx]

theorem tokenize_text (fuel : Nat) (u : Nat) (m after : JStr)
    (h : ∀ a ∈ u :: m, (a != 60) = true) :
    tokenize (fuel + 1) ((u :: m) ++ 60 :: after)
      = .text (u :: m) :: tokenize fuel (60 :: after) := by
  have hu : u ≠ 60 := by simpa using h u (List.mem_cons_self _ _)
  have hs := takeDrop_stop (fun a => a != 60) (u :: m) 60 after h (by decide)
  simp only [List.cons_append] at hs
  rw [List.cons_append, tokenize.eq_def]
  simp [hs.1, hs.2]

theorem tokenize_text_end (fuel : Nat) (u : Nat) (m : JStr)
    (h : ∀ a ∈ u :: m, (a != 60) = true) :
    tokenize (fuel + 1) (u :: m) = [.text (u :: m)] := by
  have hu : u ≠ 60 := by simpa using h u (List.mem_cons_self _ _)
  have h1 : (u :: m).takeWhile (fun a => a != 60) = u :: m := List.takeWhile_eq_self_iff.mpr h
  have h2 : (u :: m).dropWhile (fun a => a != 60) = [] := List.dropWhile_eq_nil_iff.mpr h
  rw [tokenize.eq_def]
  simp [h1, h2]
  cases fuel <;> simp [tokenize]

theorem tokenize_placeholder_open (fuel : Nat) (rest : JStr) :
    tokenize (fuel + 1) (toUnits "<p class=\"text-gray-400 col-span-full\">" ++ rest)
      = .startTag (toUnits "p") [(toUnits "class", toUnits "text-gray-400 col-span-full")]
          :: tokenize fuel rest := by
  have hpre : toUnits "<p class=\"text-gray-400 col-span-full\">"
      = 60 :: (toUnits "p class=\"text-gray-400 col-span-full\"" ++ [62]) := by decide
  have hs := takeDrop_stop (fun a => a != 62) (toUnits "p class=\"text-gray-400 col-span-full\"")
    62 rest (by decide) (by decide)
  rw [hpre, List.cons_append, List.append_assoc, List.singleton_append, tokenize.eq_def]
  simp only [List.span_eq_take_drop, hs.1, hs.2]
  rfl

theorem tokenize_placeholder_close (fuel : Nat) :
    tokenize (fuel + 1) (toUnits "</p>") = [.endTag (toUnits "p")] := by
  cases fuel <;> rfl

theorem tokenize_placeholder (k : Nat) (message : JStr) (h : isPlainText message = true) :
    tokenize (k + 3) (placeholder message)
      = .startTag (toUnits "p") [(toUnits "class", toUnits "text-gray-400 col-span-full")]
          :: ((if message = [] then [] else [.text message]) ++ [.endTag (toUnits "p")]) := by
  cases message with
  | nil =>
    simp only [placeholder, List.append_nil, tokenize_placeholder_open,
      tokenize_placeholder_close]
    rfl
  | cons u m =>
    have h60 : ∀ a ∈ u :: m, (a != 60) = true := by
      intro a ha
      have := List.all_eq_true.mp h a ha
      simp only [Bool.and_eq_true] at this
      exact this.1.1.1
    have hclose : toUnits "</p>" = 60 :: [47, 112, 62] := by decide
    simp only [placeholder, List.append_assoc, tokenize_placeholder_open]
    rw [hclose, tokenize_text _ _ _ _ h60, ← hclose, tokenize_placeholder_close]
    simp

theorem sampleParse_placeholder (message : JStr) (h : isPlainText message = true) :
    sampleParse (placeholder message) = [paragraph message] := by
  have hfuel : (placeholder message).length + 1 = (message.length + 41) + 3 := by
    have h1 : (toUnits "<p class=\"text-gray-400 col-span-full\">").length = 39 := by decide
    have h2 : (toUnits "</p>").length = 4 := by decide
    simp only [placeholder, List.length_append, h1, h2]
    omega
  unfold sampleParse
  rw [hfuel, tokenize_placeholder _ _ h]
  by_cases hm : message = []
  · subst hm
    rfl
  · simp [hm, buildTree, isVoid, paragraph]
    decide

theorem sampleParse_plain (message : JStr) (h : isPlainText message = true) :
    sampleParse message = if message = [] then [] else [.text message] := by
  cases message with
  | nil => rfl
  | cons u m =>
    have h60 : ∀ a ∈ u :: m, (a != 60) = true := by
      intro a ha
      have := List.all_eq_true.mp h a ha
      simp only [Bool.and_eq_true] at this
      exact this.1.1.1
    simp [sampleParse, tokenize_text_end _ _ _ h60, buildTree]

theorem markupHoldsId_plain (id : String) (message : JStr) (h : isPlainText message = true) :
    markupHoldsId sampleHost id message = false := by
  by_cases hm : message = []
  · subst hm
    rfl
  · have hp : sampleHost.parseHTML message = [.text message] := by
      show sampleParse message = _
      rw [sampleParse_plain _ h]
      simp [hm]
    simp [markupHoldsId, setInnerHTML, hm, hp, removeIdForest, removeIdNode]

/-! ## Claims -/

/-- C1, as stated, fails: with the message `a</p><p>b` and an absent list the
container ends with two paragraphs, and the text of neither is the message. -/
theorem displayResults_markup_message :
    (displayResults sampleHost .undefined [] (toUnits "a</p><p>b")).1
      = [.node (.elem (toUnits "p") [(toUnits "class", toUnits "text-gray-400 col-span-full")]
            [.text (toUnits "a")]),
         .node (.elem (toUnits "p") [] [.text (toUnits "b")])] ∧
    (displayResults sampleHost .undefined [] (toUnits "a</p><p>b")).1.length = 2 :=
  ⟨rfl, rfl⟩

/-- C1, amended: on an absent or empty list `displayResults` leaves in the
container what the HTML parser builds from the placeholder markup
`<p class="text-gray-400 col-span-full">` + message + `</p>`, and no cards; that
is exactly one placeholder paragraph whose text is the message whenever the
parser reads the markup so, as the sample parser does for every message
without markup.  On a list
of `n ≥ 1` catalogue items it leaves exactly the `n` cards `createAnimeCard`
builds for them, in input order.  In both cases whatever the container held
before is gone.  A search for `naruto` answered with `[]` shows
`No results for "naruto".`. -/
theorem displayResults_renders (H : Host) (container : List Child) (message : JStr) :
    displayResults H .undefined container message
      = ((H.parseHTML (placeholder message)).map Child.node, true) ∧
    displayResults H .null container message
      = ((H.parseHTML (placeholder message)).map Child.node, true) ∧
    displayResults H (.arr []) container message
      = ((H.parseHTML (placeholder message)).map Child.node, true) ∧
    (H.parseHTML (placeholder message) = [paragraph message] →
      displayResults H .undefined container message = ([.node (paragraph message)], true) ∧
      displayResults H .null container message = ([.node (paragraph message)], true) ∧
      displayResults H (.arr []) container message = ([.node (paragraph message)], true)) ∧
    (isPlainText message = true →
      sampleHost.parseHTML (placeholder message) = [paragraph message]) ∧
    (∀ (a : CatalogItem) (rest : List CatalogItem),
      ∃ cards : List Element,
        ((a :: rest).map fun x => createAnimeCard H x.toJVal) = cards.map some ∧
        cards.length = (a :: rest).length ∧
        displayResults H (.arr ((a :: rest).map CatalogItem.toJVal)) container message
          = (cards.map Child.element, true)) ∧
    (searchAnime sampleHost (.response true (some (.arr []))) typedPage).1.recommendations
      = [.node (paragraph (toUnits "No results for \"naruto\"."))] := by
  have h1 : displayResults H .undefined container message
      = ((H.parseHTML (placeholder message)).map Child.node, true) := by
    simp [displayResults, JVal.truthy, setInnerHTML_placeholder]
  have h2 : displayResults H .null container message
      = ((H.parseHTML (placeholder message)).map Child.node, true) := by
    simp [displayResults, JVal.truthy, setInnerHTML_placeholder]
  have h3 : displayResults H (.arr []) container message
      = ((H.parseHTML (placeholder message)).map Child.node, true) := by
    simp [displayResults, JVal.truthy, JVal.getProp, JVal.isZero, setInnerHTML_placeholder]
  refine ⟨h1, h2, h3, ?_, sampleParse_placeholder message, ?_, rfl⟩
  · intro hp
    rw [h1, h2, h3, hp]
    exact ⟨rfl, rfl, rfl⟩
  · intro a rest
    exact ⟨(a :: rest).map (expectedCard H), cards_of_items H (a :: rest), by simp,
      displayResults_items H a rest container message⟩

theorem displayResults_renders_witness :
    sampleHost.parseHTML (placeholder (toUnits "No anime found."))
      = [paragraph (toUnits "No anime found.")] ∧
    displayResults sampleHost .undefined samplePage.recommendations (toUnits "No anime found.")
      = ([.node (paragraph (toUnits "No anime found."))], true) :=
  ⟨rfl, ((displayResults_renders sampleHost samplePage.recommendations
    (toUnits "No anime found.")).2.2.2.1
      ((displayResults_renders sampleHost samplePage.recommendations
        (toUnits "No anime found.")).2.2.2.2.1 (by decide))).1⟩

/-- C2: when the search input is empty or holds only characters that `trim`
removes, `searchAnime` issues no request and leaves the whole page as it was. -/
theorem searchAnime_blank_query (H : Host) (r : FetchResult) (ui : UI)
    (h : ∀ c ∈ ui.searchInput, isTrimmed c = true) :
    searchAnime H r ui = (ui, []) := by
  simp [searchAnime, jsTrim_blank ui.searchInput h]

theorem searchAnime_blank_query_witness :
    (∀ c ∈ samplePage.searchInput, isTrimmed c = true) ∧
    searchAnime sampleHost .rejected samplePage = (samplePage, []) :=
  ⟨by decide, searchAnime_blank_query sampleHost .rejected samplePage (by decide)⟩

/-- C10, as stated, fails: an item whose `image_url` is the empty string gets
the generated placeholder as image source, not its `image_url`. -/
theorem createAnimeCard_empty_image_url :
    createAnimeCard sampleHost (CatalogItem.toJVal ⟨"A", none, some "", none⟩)
      = some ⟨"div", "", "card rounded-lg overflow-hidden p-5 text-left cursor-pointer",
          some (toUnits "A"),
          cardMarkup (toUnits "https://placehold.co/300x450/1a1a2e/fff?text=A") (toUnits "A")
            (toUnits "N/A"),
          sampleHost.parseHTML
            (cardMarkup (toUnits "https://placehold.co/300x450/1a1a2e/fff?text=A") (toUnits "A")
              (toUnits "N/A"))⟩ ∧
    cardMarkup (toUnits "https://placehold.co/300x450/1a1a2e/fff?text=A") (toUnits "A")
        (toUnits "N/A")
      ≠ cardMarkup (toUnits "") (toUnits "A") (toUnits "N/A") :=
  ⟨rfl, by decide⟩

/-- C10, amended: the card of an item has the name as `data-title`; its badge
is the part of the genre before the first comma when the genre is present and
non-empty and `N/A` otherwise; its image source is `image_url` when that is
present and non-empty and the placeholder keyed by the encoded name otherwise.
`Comedy,Drama` gives the badge `Comedy`. -/
theorem createAnimeCard_card (H : Host) (a : CatalogItem) :
    createAnimeCard H a.toJVal
      = some ⟨"div", "", "card rounded-lg overflow-hidden p-5 text-left cursor-pointer",
          some (toUnits a.name),
          cardMarkup (expectedImage a) (toUnits a.name) (expectedBadge a),
          setInnerHTML H (cardMarkup (expectedImage a) (toUnits a.name) (expectedBadge a))⟩ ∧
    expectedBadge ⟨"A", some "Comedy,Drama", none, none⟩ = toUnits "Comedy" ∧
    expectedImage ⟨"A", some "Comedy,Drama", none, none⟩
      = toUnits "https://placehold.co/300x450/1a1a2e/fff?text=A" := by
  refine ⟨createAnimeCard_item H a, ?_, ?_⟩ <;> decide

/-- C3, as stated, fails: for the non-empty title made of one lone surrogate
`encodeURIComponent` throws inside the `try`, so no request is issued, and the
modal shows the error rendering. -/
theorem showRecommendationsModal_lone_surrogate :
    (showRecommendationsModal sampleHost (.str [55296]) (.response true (some (.arr [])))
      samplePage).2.length = 0 ∧
    (showRecommendationsModal sampleHost (.str [55296]) (.response true (some (.arr [])))
      samplePage).1.modalBody = errorMarkup := by
  decide

/-- C3, amended: for every title and every outcome of the request,
`showRecommendationsModal` issues exactly one request, to `/recommend?title=`
followed by the encoded title, when the title can be encoded, which every
well-formed title can; when `encodeURIComponent` throws (a lone surrogate) it
issues none.  In every case, once the outcome has been handled the modal body
is the error rendering or a success rendering, never the loading spinner. -/
theorem showRecommendationsModal_settles (H : Host) (title : JStr) (text : String)
    (r : FetchResult) (ui : UI) :
    (showRecommendationsModal H (.str title) r ui).2
      = (match encodeURIComponent title with
          | some e =>
            [Request.get (toUnits "http://127.0.0.1:5000/api/recommend?title=" ++ e)]
          | none => []) ∧
    (showRecommendationsModal H (.str (toUnits text)) r ui).2
      = [Request.get (toUnits "http://127.0.0.1:5000/api/recommend?title=" ++ encodedText text)] ∧
    ((showRecommendationsModal H (.str title) r ui).1.modalBody = errorMarkup ∨
      ∃ rows, (showRecommendationsModal H (.str title) r ui).1.modalBody
        = successMarkup title rows) ∧
    (showRecommendationsModal H (.str title) r ui).1.modalBody ≠ spinnerMarkup := by
  have hurl : API_URL ++ toUnits "/recommend?title="
      = toUnits "http://127.0.0.1:5000/api/recommend?title=" := by decide
  have hreq : ∀ t : JStr, (showRecommendationsModal H (.str t) r ui).2
      = (match encodeURIComponent t with
          | some e =>
            [Request.get (toUnits "http://127.0.0.1:5000/api/recommend?title=" ++ e)]
          | none => []) := by
    intro t
    cases he : encodeURIComponent t <;>
      simp [showRecommendationsModal, recommendUrl, jsToString, he, hurl]
  refine ⟨hreq title, ?_, ?_⟩
  · rw [hreq, encodeURIComponent_toUnits]
  · cases he : encodeURIComponent title with
    | none =>
      have hb : (showRecommendationsModal H (.str title) r ui).1.modalBody = errorMarkup := by
        simp [showRecommendationsModal, recommendUrl, jsToString, he,
          showRecommendationsModal_catch]
      rw [hb]
      exact ⟨Or.inl rfl, by decide⟩
    | some e =>
      cases hr : renderRecommendations H title r with
      | none =>
        have hb : (showRecommendationsModal H (.str title) r ui).1.modalBody = errorMarkup := by
          simp [showRecommendationsModal, recommendUrl, jsToString, he,
            showRecommendationsModal_resume, hr, showRecommendationsModal_catch]
        rw [hb]
        exact ⟨Or.inl rfl, by decide⟩
      | some html =>
        obtain ⟨rows, hrows⟩ := renderRecommendations_some H title r html hr
        have hb : (showRecommendationsModal H (.str title) r ui).1.modalBody
            = successMarkup title rows := by
          simp [showRecommendationsModal, recommendUrl, jsToString, he,
            showRecommendationsModal_resume, hr, hrows]
        rw [hb]
        exact ⟨Or.inr ⟨rows, rfl⟩, successMarkup_ne_spinner title rows⟩

/-- C4: when the body of the response is an object carrying an `error` field,
whatever its value, and when the request fails (transport failure or a body
that does not parse), the modal body ends as the single fixed message
`Could not load recommendations.`, the same in all these cases and independent
of the error text, and the only request issued is the one to `/recommend`; for
an argument of any kind at most one request is issued. -/
theorem showRecommendationsModal_error (H : Host) (title : String) (anyTitle : JVal) (ui : UI)
    (ok : Bool) (fields : List (String × JVal)) (e : JVal)
    (_h : fields.lookup "error" = some e) :
    (showRecommendationsModal H (.str (toUnits title)) (.response ok (some (.obj fields))) ui
      ).1.modalBody
      = toUnits "<p class=\"text-red-400 text-center\">Could not load recommendations.</p>" ∧
    (showRecommendationsModal H (.str (toUnits title)) .rejected ui).1.modalBody
      = toUnits "<p class=\"text-red-400 text-center\">Could not load recommendations.</p>" ∧
    (showRecommendationsModal H (.str (toUnits title)) (.response ok none) ui).1.modalBody
      = toUnits "<p class=\"text-red-400 text-center\">Could not load recommendations.</p>" ∧
    (showRecommendationsModal H (.str (toUnits title)) (.response ok (some (.obj fields))) ui).2
      = [Request.get (toUnits "http://127.0.0.1:5000/api/recommend?title=" ++ encodedText title)] ∧
    (showRecommendationsModal H (.str (toUnits title)) .rejected ui).2
      = [Request.get (toUnits "http://127.0.0.1:5000/api/recommend?title=" ++ encodedText title)] ∧
    (showRecommendationsModal H anyTitle (.response ok (some (.obj fields))) ui).1.modalBody
      = toUnits "<p class=\"text-red-400 text-center\">Could not load recommendations.</p>" ∧
    (showRecommendationsModal H anyTitle .rejected ui).1.modalBody
      = toUnits "<p class=\"text-red-400 text-center\">Could not load recommendations.</p>" ∧
    (showRecommendationsModal H anyTitle (.response ok (some (.obj fields))) ui).2.length ≤ 1 ∧
    (showRecommendationsModal H anyTitle .rejected ui).2.length ≤ 1 := by
  have hurl : API_URL ++ toUnits "/recommend?title="
      = toUnits "http://127.0.0.1:5000/api/recommend?title=" := by decide
  have hany : ∀ r2 : FetchResult, renderRecommendations H
        ((recommendUrl H anyTitle).map Prod.fst |>.getD []) r2 = none →
      (showRecommendationsModal H anyTitle r2 ui).1.modalBody = errorMarkup ∧
      (showRecommendationsModal H anyTitle r2 ui).2.length ≤ 1 := by
    intro r2 h2
    cases hu : recommendUrl H anyTitle with
    | none => simp [showRecommendationsModal, hu, showRecommendationsModal_catch]
    | some p =>
      obtain ⟨t, url⟩ := p
      simp only [hu, Option.map_some', Option.getD_some] at h2
      simp [showRecommendationsModal, hu, showRecommendationsModal_resume, h2,
        showRecommendationsModal_catch]
  have ha1 := hany (.response ok (some (.obj fields))) (renderRecommendations_obj H _ ok fields)
  have ha2 := hany .rejected rfl
  refine ⟨?_, ?_, ?_, ?_, ?_, ha1.1, ha2.1, ha1.2, ha2.2⟩ <;>
    simp [showRecommendationsModal, recommendUrl_text, showRecommendationsModal_resume,
      renderRecommendations_obj, renderRecommendations, showRecommendationsModal_catch,
      errorMarkup, hurl]

theorem showRecommendationsModal_error_witness :
    [("error", JVal.str (toUnits "not found"))].lookup "error"
      = some (JVal.str (toUnits "not found")) ∧
    (showRecommendationsModal sampleHost (.str (toUnits "Bleach"))
        (.response true (some (.obj [("error", .str (toUnits "not found"))]))) samplePage
      ).1.modalBody
      = toUnits "<p class=\"text-red-400 text-center\">Could not load recommendations.</p>" :=
  ⟨rfl, (showRecommendationsModal_error sampleHost "Bleach" (.str (toUnits "Bleach")) samplePage
    true [("error", .str (toUnits "not found"))] (.str (toUnits "not found")) rfl).1⟩

/-- C5, as stated, fails: a recommendation whose rating is the number `0` is
shown with the rating text `N/A`, while `0` formatted with two decimals is
`0.00`. -/
theorem rating_zero_shown_as_NA :
    recommendationRow sampleHost (CatalogItem.toJVal ⟨"Bleach", some "Action", none, some 0⟩)
      = some (rowMarkup (toUnits "https://placehold.co/80x120/16213e/e94560?text=Bleach")
          (toUnits "Bleach") (toUnits "Action") (toUnits "N/A")) ∧
    sampleHost.toFixed 0 2 = toUnits "0.00" ∧
    rowMarkup (toUnits "https://placehold.co/80x120/16213e/e94560?text=Bleach")
        (toUnits "Bleach") (toUnits "Action") (toUnits "N/A")
      ≠ rowMarkup (toUnits "https://placehold.co/80x120/16213e/e94560?text=Bleach")
          (toUnits "Bleach") (toUnits "Action") (sampleHost.toFixed 0 2) := by
  decide

/-- C5, amended: in the success rendering the rating text of a row is the
rating formatted by `toFixed(2)` when the rating is a number other than `0`,
and `N/A` when the rating is absent or is `0`; the modal shows one such row per
recommendation, and an empty list renders `No similar anime found.` instead of
rows. -/
theorem recommendation_rating_text (H : Host) (title : JStr) (ok : Bool) (q : ℚ)
    (name : String) (genre image_url : Option String) (items : List CatalogItem) :
    ratingText H (.num q) = some (if q = 0 then toUnits "N/A" else H.toFixed q 2) ∧
    ratingText H .undefined = some (toUnits "N/A") ∧
    (∃ img g,
      recommendationRow H (CatalogItem.toJVal ⟨name, genre, image_url, some q⟩)
        = some (rowMarkup img (toUnits name) g
            (if q = 0 then toUnits "N/A" else H.toFixed q 2))) ∧
    (∃ img g,
      recommendationRow H (CatalogItem.toJVal ⟨name, genre, image_url, none⟩)
        = some (rowMarkup img (toUnits name) g (toUnits "N/A"))) ∧
    (∃ rows,
      (items.map fun a => recommendationRow H a.toJVal) = rows.map some ∧
      renderRecommendations H title (.response ok (some (.arr (items.map CatalogItem.toJVal))))
        = some (successMarkup title rows)) ∧
    renderRecommendations H title (.response ok (some (.arr [])))
      = some (toUnits "<h2 class=\"text-3xl font-bold mb-4\">Because you watched <span class=\"text-pink-400\">"
          ++ title
          ++ toUnits "</span></h2><div class=\"space-y-3\"><p>No similar anime found.</p></div>") := by
  have hlit : toUnits "</span></h2><div class=\"space-y-3\">"
      ++ (toUnits "<p>No similar anime found.</p>" ++ toUnits "</div>")
      = toUnits "</span></h2><div class=\"space-y-3\"><p>No similar anime found.</p></div>" := by
    decide
  refine ⟨?_, ?_, ?_, ?_, ?_, ?_⟩
  · by_cases hq : q = 0 <;> simp [ratingText, JVal.truthy, hq]
  · simp [ratingText, JVal.truthy]
  · exact ⟨_, _, recommendationRow_item H ⟨name, genre, image_url, some q⟩⟩
  · exact ⟨_, _, recommendationRow_item H ⟨name, genre, image_url, none⟩⟩
  · obtain ⟨rows, h1, h2⟩ := rows_of_items H items
    exact ⟨rows, h1, by simp [renderRecommendations, JVal.getProp, JVal.truthy, h2]⟩
  · simp [renderRecommendations, JVal.getProp, JVal.truthy, mapRows, successMarkup,
      joinAll, List.append_assoc, hlit]

/-- C8: `fetchRandomAnime` clears the catalogue grid, renders no card and, when
`/random` answers with an item, opens the detail modal and requests the
recommendations for the name of that item.  Closing the modal afterwards issues
no request and leaves the grid empty: the catalogue list is not fetched again. -/
theorem fetchRandomAnime_then_closeModal (H : Host) (r r2 : FetchResult) (ui : UI)
    (ok : Bool) (name : String) (fields : List (String × JVal)) :
    (fetchRandomAnime H r r2 ui).1.recommendations = [] ∧
    (fetchRandomAnime H (.response ok (some (.obj (("name", .str (toUnits name)) :: fields))))
        r2 ui).2
      = [Request.get (toUnits "http://127.0.0.1:5000/api/random"),
          Request.get (toUnits "http://127.0.0.1:5000/api/recommend?title=" ++ encodedText name)] ∧
    (fetchRandomAnime H (.response ok (some (.obj (("name", .str (toUnits name)) :: fields))))
        r2 ui).1.modalHidden = false ∧
    (closeModal (fetchRandomAnime H r r2 ui).1).2 = [] ∧
    (closeModal (fetchRandomAnime H r r2 ui).1).1.recommendations = [] := by
  have hurl : API_URL ++ toUnits "/recommend?title="
      = toUnits "http://127.0.0.1:5000/api/recommend?title=" := by decide
  have hrandom : API_URL ++ toUnits "/random" = toUnits "http://127.0.0.1:5000/api/random" := by
    decide
  have hkeep : ∀ (t : JStr) (u : UI), (showRecommendationsModal_resume H t r2 u).recommendations
      = u.recommendations ∧
      (showRecommendationsModal_resume H t r2 u).modalHidden = u.modalHidden := by
    intro t u
    simp only [showRecommendationsModal_resume, showRecommendationsModal_catch]
    split <;> exact ⟨rfl, rfl⟩
  have h1 : (fetchRandomAnime H r r2 ui).1.recommendations = [] := by
    simp only [fetchRandomAnime]
    split
    · simp [setInnerHTML]
    · split
      · simp [setInnerHTML, showRecommendationsModal_catch, showRecommendationsModal_begin]
      · simp [(hkeep _ _).1, setInnerHTML, showRecommendationsModal_begin]
  refine ⟨h1, ?_, ?_, rfl, ?_⟩
  · simp [fetchRandomAnime, JVal.getProp, List.lookup, recommendUrl_text, hurl, hrandom]
  · simp [fetchRandomAnime, JVal.getProp, List.lookup, recommendUrl_text, (hkeep _ _).2,
      showRecommendationsModal_begin]
  · simpa [closeModal] using h1

/-- C9, as stated, fails.  An OK response whose body does not parse, or whose
body is `{}`, is neither a transport failure nor a non-OK status, yet
`fetchAndDisplayAnime` ends with the error banner visible.  And for a genre that
`encodeURIComponent` rejects (a lone surrogate) the call stops before its
`try`: it issues no request and leaves the loading indicator visible. -/
theorem fetchAndDisplayAnime_banner_without_failure :
    (FetchResult.response true none).failed = false ∧
    (fetchAndDisplayAnime sampleHost [] (.response true none) samplePage).1.errorHidden = false ∧
    (FetchResult.response true (some (.obj []))).failed = false ∧
    (fetchAndDisplayAnime sampleHost [] (.response true (some (.obj []))) samplePage
      ).1.errorHidden = false ∧
    (fetchAndDisplayAnime sampleHost [55296] (.response true (some (.arr []))) samplePage
      ).2.length = 0 ∧
    (fetchAndDisplayAnime sampleHost [55296] (.response true (some (.arr []))) samplePage
      ).1.loadingHidden = false := by
  decide

/-- C9, amended.  `fetchAndDisplayAnime(genre)` computes its address before the
`try`.  When `encodeURIComponent` rejects the genre, the call stops there:
indicator shown, grid emptied, banner hidden, no request.  Otherwise, and so for
every well-formed genre, it issues exactly one GET, to `/anime` when the genre
is empty and to `/anime?genre=` followed by the encoded genre when it is not,
and finishes with the loading indicator hidden and with the error banner
visible if and only if the request failed (transport failure or non-OK status),
or the body did not parse, or rendering the body threw: the body is truthy, its
`length` is not `0`, and it is not an array for each of whose items
`createAnimeCard` returns a card.  The banner is hidden after an OK response
carrying a list of catalogue items.  `searchAnime` with a non-empty query
finishes with the loading indicator hidden and the error banner hidden for
every outcome, having issued one GET to `/search?q=` followed by the encoded
query, or none when the query cannot be encoded. -/
theorem fetch_error_surfacing (H : Host) (genre : JStr) (text : String) (r : FetchResult)
    (ui : UI) (items : List CatalogItem) :
    (match (if genre = [] then some []
        else (encodeURIComponent genre).map fun e => toUnits "?genre=" ++ e) with
      | none =>
        fetchAndDisplayAnime H genre r ui
          = ({ ui with loadingHidden := false, recommendations := [], errorHidden := true }, [])
      | some suffix =>
        (fetchAndDisplayAnime H genre r ui).2
          = [Request.get (toUnits "http://127.0.0.1:5000/api/anime" ++ suffix)] ∧
        (fetchAndDisplayAnime H genre r ui).1.loadingHidden = true ∧
        ((fetchAndDisplayAnime H genre r ui).1.errorHidden = false ↔
          (r.failed = true ∨ (∃ ok, r = .response ok none) ∨
            ∃ body, r = .response true (some body) ∧ body.truthy = true ∧
              ((body.getProp "length").getD .undefined).isZero = false ∧
              ∀ xs, body = .arr xs → ∃ x ∈ xs, createAnimeCard H x = none))) ∧
    (fetchAndDisplayAnime H (toUnits text) r ui).2
      = [Request.get (toUnits "http://127.0.0.1:5000/api/anime" ++
          (if text = "" then [] else toUnits "?genre=" ++ encodedText text))] ∧
    (fetchAndDisplayAnime H (toUnits text) r ui).1.loadingHidden = true ∧
    (fetchAndDisplayAnime H (toUnits text)
        (.response true (some (.arr (items.map CatalogItem.toJVal)))) ui).1.errorHidden = true ∧
    (fetchAndDisplayAnime H (toUnits "Comedy") r ui).2
      = [Request.get (toUnits "http://127.0.0.1:5000/api/anime?genre=Comedy")] ∧
    (jsTrim ui.searchInput = [] ∨
      ((searchAnime H r ui).1.loadingHidden = true ∧
        (searchAnime H r ui).1.errorHidden = true ∧
        (searchAnime H r ui).2
          = (match encodeURIComponent (jsTrim ui.searchInput) with
              | some e => [Request.get (toUnits "http://127.0.0.1:5000/api/search?q=" ++ e)]
              | none => []))) := by
  have hbase : API_URL ++ toUnits "/anime" = toUnits "http://127.0.0.1:5000/api/anime" := by
    decide
  have hsearch : API_URL ++ toUnits "/search?q="
      = toUnits "http://127.0.0.1:5000/api/search?q=" := by decide
  -- the address
  have hurl : animeUrl genre
      = (if genre = [] then some []
          else (encodeURIComponent genre).map fun e => toUnits "?genre=" ++ e).map
          fun suffix => toUnits "http://127.0.0.1:5000/api/anime" ++ suffix := by
    by_cases hg : genre = []
    · simp [animeUrl, hg, hbase]
    · cases he : encodeURIComponent genre <;> simp [animeUrl, hg, he, hbase]
  have htext : animeUrl (toUnits text)
      = some (toUnits "http://127.0.0.1:5000/api/anime" ++
          (if text = "" then [] else toUnits "?genre=" ++ encodedText text)) := by
    by_cases hg : text = ""
    · simp [animeUrl, hg, hbase, toUnits_eq_nil]
    · simp [animeUrl, hg, hbase, toUnits_eq_nil, encodeURIComponent_toUnits]
  -- the banner, once a request has been issued
  have hbanner : ∀ (g : JStr) (url : JStr) (r1 : FetchResult), animeUrl g = some url →
      (fetchAndDisplayAnime H g r1 ui).1.errorHidden
        = (fetchAndDisplayAnime_try H r1
            { ui with loadingHidden := false, recommendations := [], errorHidden := true }).2 := by
    intro g url r1 hu
    cases r1 with
    | rejected =>
      simp [fetchAndDisplayAnime, hu, fetchAndDisplayAnime_try, showFetchError, setInnerHTML]
    | response ok json =>
      cases ok <;> cases json with
      | none =>
        simp [fetchAndDisplayAnime, hu, fetchAndDisplayAnime_try, showFetchError, setInnerHTML]
      | some v =>
        simp only [fetchAndDisplayAnime, hu, fetchAndDisplayAnime_try, showFetchError,
          setInnerHTML]
        split_ifs <;> simp_all
  refine ⟨?_, ?_, ?_, ?_, ?_, ?_⟩
  · cases hs : (if genre = [] then some []
        else (encodeURIComponent genre).map fun e => toUnits "?genre=" ++ e) with
    | none =>
      rw [hs] at hurl
      simp [fetchAndDisplayAnime, hurl, setInnerHTML]
    | some suffix =>
      rw [hs] at hurl
      simp only [Option.map_some'] at hurl
      refine ⟨by simp [fetchAndDisplayAnime, hurl], by simp [fetchAndDisplayAnime, hurl], ?_⟩
      rw [hbanner genre _ r hurl]
      cases r with
      | rejected => simp [fetchAndDisplayAnime_try, FetchResult.failed]
      | response ok json =>
        cases ok <;> cases json with
        | none => simp [fetchAndDisplayAnime_try, FetchResult.failed]
        | some v =>
          simp [fetchAndDisplayAnime_try, FetchResult.failed, displayResults_throws]
  · simp [fetchAndDisplayAnime, htext]
  · simp [fetchAndDisplayAnime, htext]
  · rw [hbanner _ _ _ htext]
    cases items with
    | nil =>
      simp [fetchAndDisplayAnime_try, displayResults, JVal.truthy, JVal.getProp, JVal.isZero]
    | cons a rest =>
      simp only [fetchAndDisplayAnime_try, displayResults_items]
      rfl
  · have hc : animeUrl (toUnits "Comedy")
        = some (toUnits "http://127.0.0.1:5000/api/anime?genre=Comedy") := by decide
    simp [fetchAndDisplayAnime, hc]
  · by_cases hq : jsTrim ui.searchInput = []
    · exact Or.inl hq
    · refine Or.inr ?_
      cases he : encodeURIComponent (jsTrim ui.searchInput) with
      | none => simp [searchAnime, hq, he]
      | some e =>
        refine ⟨by simp [searchAnime, hq, he], ?_, by simp [searchAnime, hq, he, hsearch]⟩
        simp only [searchAnime, hq, ↓reduceIte, he]
        cases r with
        | rejected => rfl
        | response ok json =>
          cases ok <;> cases json <;> simp [searchAnime_try]
          split_ifs <;> rfl

theorem fetch_error_surfacing_witness :
    jsTrim typedPage.searchInput ≠ [] ∧
    (fetchAndDisplayAnime sampleHost (toUnits "Comedy") .rejected typedPage).2
      = [Request.get (toUnits "http://127.0.0.1:5000/api/anime?genre=Comedy")] ∧
    (searchAnime sampleHost .rejected typedPage).1.loadingHidden = true ∧
    (searchAnime sampleHost .rejected typedPage).1.errorHidden = true :=
  ⟨by decide,
    (fetch_error_surfacing sampleHost [] "" .rejected typedPage []).2.2.2.2.1,
    ((fetch_error_surfacing sampleHost [] "" .rejected typedPage []).2.2.2.2.2.resolve_left
      (by decide)).1,
    ((fetch_error_surfacing sampleHost [] "" .rejected typedPage []).2.2.2.2.2.resolve_left
      (by decide)).2.1⟩

/-- C6, as stated, fails.  With the message `<i id="typing-indicator"></i>hi`
and a transcript that holds no typing indicator, `document.getElementById`
finds the element inside the user bubble first, so that one is removed and the
typing indicator stays in the transcript.  The same happens with the plain
message `hello` when a card of the grid, earlier in the document, carries the
id in the markup of its name. -/
theorem handleSendMessage_injected_id :
    jsTrim injectedPage.chatInput ≠ [] ∧
    (∀ c ∈ injectedPage.chatMessages, isTypingIndicator c = false) ∧
    (handleSendMessage sampleHost (.response true (some (.obj [("reply", .str (toUnits "Hi!"))])))
        injectedPage).1.chatMessages
      = [botBubble sampleHost (toUnits "Hello!"),
          .element ⟨"div", "", "chat-bubble p-3 rounded-lg user-bubble self-end", none,
            toUnits "<i id=\"typing-indicator\"></i>hi", [.text (toUnits "hi")]⟩,
          .element (typingBubble sampleHost),
          botBubble sampleHost (toUnits "Hi!")] ∧
    jsTrim namedPage.chatInput ≠ [] ∧
    (∀ c ∈ namedPage.chatMessages, isTypingIndicator c = false) ∧
    (handleSendMessage sampleHost (.response true (some (.obj [("reply", .str (toUnits "Hi!"))])))
        namedPage).1.chatMessages
      = [botBubble sampleHost (toUnits "Hello!"),
          userBubble sampleHost (toUnits "hello"),
          .element (typingBubble sampleHost),
          botBubble sampleHost (toUnits "Hi!")] :=
  ⟨by decide, by decide, rfl, by decide, by decide, rfl⟩

/-- C6, amended.  When the trimmed chat input `m` is non-empty,
`handleSendMessage` issues exactly one POST to `/chatbot` with body
`{message: m}` and clears the input field.  When moreover no element of the
page carries the id `typing-indicator` beforehand (in particular the transcript
holds no typing indicator) and the markup of `m` holds no element with that id,
as is the case under the sample parser for every `m` without markup, it ends with the old transcript followed by a user bubble with content `m` and
one bot bubble, with no typing indicator left.  The bot bubble holds `reply`
followed by `createChatAnimeCards(anime_list)` when the response yields them,
which is just `reply` when `anime_list` is empty or absent, and the fixed
fallback message when the exchange fails. -/
theorem handleSendMessage_turn (H : Host) (r : FetchResult) (ui : UI)
    (reply : String) (a : CatalogItem) (rest : List CatalogItem) :
    (jsTrim ui.chatInput ≠ [] →
      (handleSendMessage H r ui).2
        = [⟨"POST", toUnits "http://127.0.0.1:5000/api/chatbot",
            [("Content-Type", "application/json")],
            some (.obj [("message", .str (jsTrim ui.chatInput))])⟩] ∧
      (handleSendMessage H r ui).1.chatInput = [] ∧
      (pageHoldsId "typing-indicator" ui = false →
        markupHoldsId H "typing-indicator" (jsTrim ui.chatInput) = false →
        (handleSendMessage H r ui).1.chatMessages
          = ui.chatMessages ++ [userBubble H (jsTrim ui.chatInput),
              botBubble H (match r with
                | .response _ (some data) => (botContent H data).getD chatFallback
                | _ => chatFallback)] ∧
        ∀ c ∈ (handleSendMessage H r ui).1.chatMessages, isTypingIndicator c = false)) ∧
    (isPlainText (jsTrim ui.chatInput) = true →
      markupHoldsId sampleHost "typing-indicator" (jsTrim ui.chatInput) = false) ∧
    botContent H (.obj [("reply", .str (toUnits reply)), ("anime_list", .arr [])])
      = some (toUnits reply) ∧
    botContent H (.obj [("reply", .str (toUnits reply))]) = some (toUnits reply) ∧
    (∃ cards,
      createChatAnimeCards H (.arr ((a :: rest).map CatalogItem.toJVal)) = some cards ∧
      botContent H (.obj [("reply", .str (toUnits reply)),
          ("anime_list", .arr ((a :: rest).map CatalogItem.toJVal))])
        = some (toUnits reply ++ cards)) ∧
    chatFallback = toUnits "Oops! I couldn\x27t connect to my brain. Please try again." := by
  have hpost : API_URL ++ toUnits "/chatbot" = toUnits "http://127.0.0.1:5000/api/chatbot" := by
    decide
  refine ⟨?_, markupHoldsId_plain _ _, ?_, ?_, ?_, rfl⟩
  · intro hm
    refine ⟨by simp [handleSendMessage, hm, chatRequest, hpost], ?_, ?_⟩
    · have hkeep : ∀ u : UI, (removeTypingIndicator H u).chatInput = u.chatInput := by
        intro u
        simp only [removeTypingIndicator]
        generalize H.documentOrder = order
        induction order with
        | nil => rfl
        | cons x rest ih =>
          cases x <;> simp only [removeById] <;> split <;> first | rfl | exact ih
      simp only [handleSendMessage, hm, ↓reduceIte]
      cases r with
      | rejected => simp only [chatFailure, addMessage, hkeep]; rfl
      | response ok json =>
        cases json with
        | none => simp only [chatFailure, addMessage, hkeep]; rfl
        | some data =>
          cases hc : botContent H data <;>
            simp only [hc, chatFailure, addMessage, hkeep] <;> rfl
    · intro hpage hmsg
      have ht := handleSendMessage_transcript H r ui hm hpage hmsg
      refine ⟨ht, ?_⟩
      rw [ht]
      exact transcript_after_turn H _ _ _ (pageHoldsId_false _ _ hpage).2.2
  · simp [botContent, JVal.getProp, List.lookup, createChatAnimeCards, JVal.truthy,
      JVal.isZero, jsToString]
  · simp [botContent, JVal.getProp, List.lookup, createChatAnimeCards, JVal.truthy,
      jsToString]
  · obtain ⟨cards, hcards⟩ := chatCards_items H (a :: rest)
    have hc : createChatAnimeCards H (.arr ((a :: rest).map CatalogItem.toJVal))
        = some (toUnits "<div class=\"flex gap-2 overflow-x-auto p-1 mt-2\">" ++ joinAll cards
            ++ toUnits "</div>") := by
      simp [createChatAnimeCards, JVal.truthy, JVal.getProp, JVal.isZero, length_succ_ne_zero]
      simpa using congrArg (Option.map fun cards =>
        toUnits "<div class=\"flex gap-2 overflow-x-auto p-1 mt-2\">" ++ joinAll cards
            ++ toUnits "</div>") hcards
    refine ⟨_, hc, ?_⟩
    have hc2 := hc
    simp only [List.map_cons] at hc2
    simp [botContent, JVal.getProp, List.lookup, hc2, jsToString]

theorem handleSendMessage_turn_witness :
    jsTrim typedPage.chatInput ≠ [] ∧
    pageHoldsId "typing-indicator" typedPage = false ∧
    markupHoldsId sampleHost "typing-indicator" (jsTrim typedPage.chatInput) = false ∧
    (handleSendMessage sampleHost
        (.response true (some (.obj [("reply", .str (toUnits "Hi!")), ("anime_list", .arr [])])))
        typedPage).1.chatMessages
      = [botBubble sampleHost (toUnits "Hello!"), userBubble sampleHost (toUnits "hello"),
          botBubble sampleHost (toUnits "Hi!")] :=
  ⟨by decide, by decide, by decide,
    (((handleSendMessage_turn sampleHost
      (.response true (some (.obj [("reply", .str (toUnits "Hi!")), ("anime_list", .arr [])])))
      typedPage "Hi!" ⟨"A", none, none, none⟩ []).1 (by decide)).2.2 (by decide)
      ((handleSendMessage_turn sampleHost .rejected typedPage "Hi!" ⟨"A", none, none, none⟩ []).2.1
        (by decide))).1⟩

/-- C7: when the chat input is empty or holds only characters that `trim`
removes, `handleSendMessage` issues no request, appends nothing to the
transcript and leaves the input field, like the rest of the page, as it was. -/
theorem handleSendMessage_blank (H : Host) (r : FetchResult) (ui : UI)
    (h : ∀ c ∈ ui.chatInput, isTrimmed c = true) :
    handleSendMessage H r ui = (ui, []) := by
  simp [handleSendMessage, jsTrim_blank ui.chatInput h]

theorem handleSendMessage_blank_witness :
    (∀ c ∈ samplePage.chatInput, isTrimmed c = true) ∧
    handleSendMessage sampleHost
        (.response true (some (.obj [("reply", .str (toUnits "Hi!"))]))) samplePage
      = (samplePage, []) :=
  ⟨by decide, handleSendMessage_blank sampleHost _ samplePage (by decide)⟩

end AnimeUI
